import Mathlib

/-!
# Relayed streaming allocation (`src/av/samples/mediaserver/relayresponder.h`)

A shallow embedding of the two classes of `relayresponder.h`:

* `RelayedStreamingAllocation`, the observer of a TURN TCP client that owns a
  registry of packet streams and tears itself down when the registry empties;
* `RelayedStreamingResponder`, the HTTP responder that creates one allocation
  per request and answers with the relayed address.

Each member function becomes a function from the object before the call to a
`Result`: the object after the call, the statements with an outside effect
that were executed (in program order), and whether `assert(0)` was reached.
The collaborators whose code is not in this file (the relay client, the stream
registry, signals, the HTTP connection) are modelled from the specification,
and every such definition says so.  A collaborator call that sits inside a
`try` block can throw; which call throws, if any, is chosen by the caller of
the handler through a `fault` argument.
-/

namespace scy

/-! ## Collaborator data -/

/-- Identity of a `net::TCPSocket::Ptr` (the send handle of a peer connection). -/
abbrev Socket := Nat

/-- Modelled from the spec: `net::Address` is not under src/; an address is a
host and a port. -/
structure Address where
  host : String
  port : Nat
deriving DecidableEq, Repr

/-- Modelled from the spec: `net::Address::toString` is not under src/; §6 of
the specification gives the text form as `host:port`. -/
def Address.toString (a : Address) : String :=
  a.host ++ ":" ++ Nat.repr a.port

/-- The three fields of `StreamingOptions` that this file reads (the type is
declared in `mediaserver.h`). -/
structure StreamingOptions where
  oformat : String
  encoding : String
  framing : String
deriving DecidableEq, Repr

/-- The fields of `turn::Client::Options` assigned in `onRequest`. -/
structure ClientOptions where
  serverAddr : Address
  lifetime : Nat
  timeout : Nat
  timerInterval : Nat
  username : String
  password : String
deriving DecidableEq, Repr

/-- The `turn::ClientState` identifiers of the `switch` in `onClientStateChange`. -/
inductive ClientStateId where
  | None
  | Allocating
  | Authorizing
  | Success
  | Failed
deriving DecidableEq, Repr

/-- Modelled from the spec: `turn::TCPClient` is not under src/; the embedding
keeps the options it was constructed with, its calls are recorded as effects. -/
structure TCPClient where
  options : ClientOptions
deriving DecidableEq, Repr

/-- Modelled from the spec: `PacketStream` is not under src/; a stream has a
name, the options it was set up with, the send handles bound to its emitter,
and a started flag. -/
structure PacketStream where
  name : String
  options : Option StreamingOptions
  sinks : List Socket
  started : Bool
deriving DecidableEq, Repr

/-- Modelled from the spec: `StreamManager` (`scy/util/streammanager.h`) is not
under src/; the registry is a keyed collection of streams, the key being the
stream name. -/
structure StreamManager where
  entries : List PacketStream
deriving DecidableEq, Repr

/-- Modelled from the spec: `StreamManager::size`, the number of entries. -/
def StreamManager.size (m : StreamManager) : Nat :=
  m.entries.length

/-- Modelled from the spec: `StreamManager::empty`. -/
def StreamManager.empty (m : StreamManager) : Bool :=
  m.entries.isEmpty

/-- Modelled from the spec: `StreamManager::addStream`, insertion under the
stream name; keys are unique, an entry already stored under the name is kept. -/
def StreamManager.addStream (m : StreamManager) (s : PacketStream) : StreamManager :=
  if m.entries.any (fun e => e.name == s.name) then m
  else { entries := m.entries ++ [s] }

/-- Modelled from the spec: `StreamManager::remove`, which takes the entry
stored under `name` out of the registry and returns it, or returns null when
there is none. -/
def StreamManager.remove (m : StreamManager) (name : String) :
    Option PacketStream × StreamManager :=
  match m.entries.find? (fun e => e.name == name) with
  | none => (none, m)
  | some s => (some s, { entries := m.entries.eraseP (fun e => e.name == name) })

/-- The identity of a slot connected to a signal: the only slot this file
connects is `RelayedStreamingResponder::onAllocationCreated`. -/
inductive Slot where
  | responderOnAllocationCreated
deriving DecidableEq, Repr

/-- Modelled from the spec: `Signal` is not under src/; a signal is the list of
its connected slots (multicast with manual subscribe and unsubscribe). -/
structure Signal where
  slots : List Slot
deriving DecidableEq, Repr

/-- Modelled from the spec: `Signal::operator+=`, subscribe. -/
def Signal.connect (s : Signal) (x : Slot) : Signal :=
  { slots := s.slots ++ [x] }

/-- Modelled from the spec: `Signal::operator-=`, unsubscribe. -/
def Signal.disconnect (s : Signal) (x : Slot) : Signal :=
  { slots := s.slots.filter (fun y => y ≠ x) }

/-! ## Effects -/

/-- Severity of a log line (`DebugS`, `WarnS`, `ErrorS`). -/
inductive LogLevel where
  | debug
  | warn
  | error
deriving DecidableEq, Repr

/-- The statements with an effect outside the object, one constructor per
call that occurs in the file.  Log lines carry the literal text of the
statement, not the values streamed after it. -/
inductive Effect where
  | log (level : LogLevel) (msg : String)
  | clientAddPermission (ip : String)
  | clientInitiate
  | clientShutdown
  | streamsCloseAll
  | streamClose (name : String)
  | deleteLater
  | assignDeleted (value : Bool)
  | emitAllocationCreated
  | emitConnectionCreated (peerAddr : Address)
  | newPacketStream (name : String)
  | setupPacketStream (name : String) (options : StreamingOptions)
      (freeCaptures attachPacketizers : Bool)
  | emitterAttach (name : String) (socket : Socket)
  | streamStart (name : String)
  | streamsAddStream (name : String)
  | streamsRemove (name : String)
  | emitterDetach (name : String) (socket : Socket)
  | deleteStream (name : String)
  | assertFail
  | newAllocation (peerIP : String) (co : ClientOptions)
  | signalConnect (x : Slot)
  | signalDisconnect (x : Slot)
  | clientRelayedAddress
  | responseSet (key value : String)
  | connectionSend (bytes : String)
  | connectionClose
deriving DecidableEq, Repr

/-- Modelled from the spec: `StreamManager::closeAll` closes every entry and
leaves the registry empty (an entry is destroyed on allocation disposal). -/
def StreamManager.closeAll (m : StreamManager) : StreamManager × List Effect :=
  ({ entries := [] }, Effect.streamsCloseAll :: m.entries.map (fun e => Effect.streamClose e.name))

/-- Log lines are not collaborator effects. -/
def Effect.isLog : Effect → Bool
  | .log _ _ => true
  | _ => false

/-- Calls on a collaborator (relay client, registry, stream, signal, event
loop, HTTP connection): every effect but a log line, the write of the
`deleted` member, and the `assert(0)` marker. -/
def Effect.isCollab : Effect → Bool
  | .log _ _ => false
  | .assignDeleted _ => false
  | .assertFail => false
  | _ => true

/-- The teardown effects of `dispose`: relay-client shutdown, close-all of the
registry (with the close of each entry) and the scheduled destruction. -/
def Effect.isTeardown : Effect → Bool
  | .clientShutdown => true
  | .streamsCloseAll => true
  | .streamClose _ => true
  | .deleteLater => true
  | _ => false

/-- The calls that only `RelayedStreamingResponder::onAllocationCreated`
makes: unsubscribe, read of the relayed address, header, send, close. -/
def Effect.isResponder : Effect → Bool
  | .signalDisconnect _ => true
  | .clientRelayedAddress => true
  | .responseSet _ _ => true
  | .connectionSend _ => true
  | .connectionClose => true
  | _ => false

/-- A send on the HTTP connection, whatever the payload. -/
def Effect.isSend : Effect → Bool
  | .connectionSend _ => true
  | _ => false

/-- An admission: the insertion of a started stream into the registry. -/
def Effect.isAdmission : Effect → Bool
  | .streamsAddStream _ => true
  | _ => false

/-! ## RelayedStreamingAllocation -/

/-- The data members of `RelayedStreamingAllocation` (lines 22-32). -/
structure RelayedStreamingAllocation where
  client : TCPClient
  peerIP : String
  streams : StreamManager
  options : StreamingOptions
  frameNumber : Int
  connected : Bool
  deleted : Bool
  AllocationCreated : Signal
  ConnectionCreated : Signal
deriving DecidableEq, Repr

/-- What a member function leaves behind: the object, the effects in program
order, and whether `assert(0)` was reached (the process aborts there). -/
structure Result where
  state : RelayedStreamingAllocation
  effects : List Effect
  aborted : Bool
deriving DecidableEq, Repr

namespace RelayedStreamingAllocation

/-- The constructor (lines 34-44): registry and signals start empty. -/
def new (options : StreamingOptions) (clientOptions : ClientOptions) (peerIP : String) :
    RelayedStreamingAllocation :=
  { client := { options := clientOptions }
    peerIP := peerIP
    streams := { entries := [] }
    options := options
    frameNumber := 0
    connected := false
    deleted := false
    AllocationCreated := { slots := [] }
    ConnectionCreated := { slots := [] } }

/-- The destructor (lines 46-51): its two assertions, `streams.empty()` and
`deleted`; it has no other statement. -/
def destructor (a : RelayedStreamingAllocation) : Result :=
  if a.streams.empty then
    if a.deleted then
      { state := a, effects := [], aborted := false }
    else
      { state := a, effects := [Effect.assertFail], aborted := true }
  else
    { state := a, effects := [Effect.assertFail], aborted := true }

/-- The collaborator call of `initiate` that throws. -/
inductive InitiateFault where
  | permissionPeer
  | permissionLocal
  | permissionProxy
  | clientInitiate
deriving DecidableEq, Repr

/-- The calls of the `try` block of `initiate`, in program order. -/
def initiateCalls (a : RelayedStreamingAllocation) : List (InitiateFault × Effect) :=
  [ (.permissionPeer, .clientAddPermission a.peerIP),
    (.permissionLocal, .clientAddPermission "127.0.0.1"),
    (.permissionProxy, .clientAddPermission "192.168.1.1"),
    (.clientInitiate, .clientInitiate) ]

/-- The member `initiate` (lines 53-67). -/
def initiate (a : RelayedStreamingAllocation) (fault : Option InitiateFault) : Result :=
  match fault with
  | none =>
    { state := a
      effects := Effect.log .debug "Initiating" :: (initiateCalls a).map Prod.snd
      aborted := false }
  | some f =>
    { state := a
      effects := Effect.log .debug "Initiating" ::
        (((initiateCalls a).takeWhile (fun c => c.1 ≠ f)).map Prod.snd
          ++ [Effect.log .error "Error: ", Effect.assertFail])
      aborted := true }

/-- The member `dispose` (lines 69-85). -/
def dispose (a : RelayedStreamingAllocation) : Result :=
  if a.deleted then
    { state := a, effects := [Effect.log .debug "Terminating"], aborted := false }
  else
    let closed := a.streams.closeAll
    { state := { a with streams := closed.1, deleted := true }
      effects := [Effect.log .debug "Terminating", Effect.clientShutdown] ++ closed.2
        ++ [Effect.deleteLater, Effect.assignDeleted true]
      aborted := false }

/-- The member `onClientStateChange` (lines 88-111). -/
def onClientStateChange (a : RelayedStreamingAllocation) (state : ClientStateId) : Result :=
  match state with
  | .None =>
    { state := a, effects := [Effect.log .debug "Relay state changed: "], aborted := false }
  | .Allocating =>
    { state := a, effects := [Effect.log .debug "Relay state changed: "], aborted := false }
  | .Authorizing =>
    { state := a, effects := [Effect.log .debug "Relay state changed: "], aborted := false }
  | .Success =>
    { state := a
      effects := [Effect.log .debug "Relay state changed: ", Effect.emitAllocationCreated]
      aborted := false }
  | .Failed =>
    { state := a
      effects := [Effect.log .debug "Relay state changed: ",
        Effect.log .warn "Relay connection lost"]
      aborted := false }

/-- The collaborator call of `onRelayConnectionCreated` that throws. -/
inductive CreatedFault where
  | emitConnectionCreated
  | newPacketStream
  | setupPacketStream
  | emitterAttach
  | streamStart
  | addStream
deriving DecidableEq, Repr

/-- The calls of the `try` block of `onRelayConnectionCreated`, in program order. -/
def createdCalls (a : RelayedStreamingAllocation) (socket : Socket) (peerAddr : Address) :
    List (CreatedFault × Effect) :=
  [ (.emitConnectionCreated, .emitConnectionCreated peerAddr),
    (.newPacketStream, .newPacketStream peerAddr.toString),
    (.setupPacketStream, .setupPacketStream peerAddr.toString a.options true true),
    (.emitterAttach, .emitterAttach peerAddr.toString socket),
    (.streamStart, .streamStart peerAddr.toString),
    (.addStream, .streamsAddStream peerAddr.toString) ]

/-- The stream that `onRelayConnectionCreated` has built when it reaches
`addStream`: named by the peer address, set up from the options of the
allocation, bound to the socket, started. -/
def createdStream (a : RelayedStreamingAllocation) (socket : Socket) (peerAddr : Address) :
    PacketStream :=
  { name := peerAddr.toString, options := some a.options, sinks := [socket], started := true }

/-- The member `onRelayConnectionCreated` (lines 113-151). -/
def onRelayConnectionCreated (a : RelayedStreamingAllocation) (socket : Socket)
    (peerAddr : Address) (fault : Option CreatedFault) : Result :=
  if a.streams.size == 1 then
    { state := a
      effects := [Effect.log .debug "Connection created: ",
        Effect.log .debug "Rejecting connection"]
      aborted := false }
  else
    match fault with
    | none =>
      { state := { a with streams := a.streams.addStream (createdStream a socket peerAddr) }
        effects := Effect.log .debug "Connection created: " ::
          (createdCalls a socket peerAddr).map Prod.snd
        aborted := false }
    | some f =>
      { state := a
        effects := Effect.log .debug "Connection created: " ::
          ((((createdCalls a socket peerAddr).takeWhile (fun c => c.1 ≠ f)).map Prod.snd)
            ++ [Effect.log .error "Stream error: ", Effect.assertFail])
        aborted := true }

/-- The collaborator call of `onRelayConnectionClosed` that throws. -/
inductive ClosedFault where
  | remove
  | emitterDetach
deriving DecidableEq, Repr

/-- The `try` block of `onRelayConnectionClosed` (lines 157-173). -/
def closedTry (a : RelayedStreamingAllocation) (socket : Socket) (peerAddress : Address)
    (fault : Option ClosedFault) : Result :=
  match fault with
  | some .remove =>
    { state := a
      effects := [Effect.log .error "Stream error: ", Effect.assertFail]
      aborted := true }
  | _ =>
    match a.streams.remove peerAddress.toString with
    | (none, rest) =>
      { state := { a with streams := rest }
        effects := [Effect.streamsRemove peerAddress.toString]
        aborted := false }
    | (some stream, rest) =>
      match fault with
      | some _ =>
        { state := { a with streams := rest }
          effects := [Effect.streamsRemove peerAddress.toString,
            Effect.log .error "Stream error: ", Effect.assertFail]
          aborted := true }
      | none =>
        { state := { a with streams := rest }
          effects := [Effect.streamsRemove peerAddress.toString,
            Effect.emitterDetach stream.name socket, Effect.deleteStream stream.name]
          aborted := false }

/-- The member `onRelayConnectionClosed` (lines 153-177). -/
def onRelayConnectionClosed (a : RelayedStreamingAllocation) (socket : Socket)
    (peerAddress : Address) (fault : Option ClosedFault) : Result :=
  let t := closedTry a socket peerAddress fault
  if t.aborted then
    { t with effects := Effect.log .debug "Connection closed: " :: t.effects }
  else if t.state.streams.empty then
    let d := t.state.dispose
    { state := d.state
      effects := Effect.log .debug "Connection closed: " :: (t.effects ++ d.effects)
      aborted := false }
  else
    { t with effects := Effect.log .debug "Connection closed: " :: t.effects }

/-- The member `onRelayDataReceived` (lines 179-185). -/
def onRelayDataReceived (a : RelayedStreamingAllocation) (_data : String)
    (_peerAddr : Address) : Result :=
  { state := a, effects := [Effect.log .debug "Received data from peer: "], aborted := false }

/-- The member `onAllocationPermissionsCreated` (lines 187-190). -/
def onAllocationPermissionsCreated (a : RelayedStreamingAllocation) : Result :=
  { state := a, effects := [Effect.log .debug "Permissions created"], aborted := false }

end RelayedStreamingAllocation

/-- What can happen to an allocation: the notifications of the relay client
and a call of `dispose`. -/
inductive Event where
  | stateChange (state : ClientStateId)
  | connectionCreated (socket : Socket) (peerAddr : Address)
      (fault : Option RelayedStreamingAllocation.CreatedFault)
  | connectionClosed (socket : Socket) (peerAddress : Address)
      (fault : Option RelayedStreamingAllocation.ClosedFault)
  | dataReceived (data : String) (peerAddr : Address)
  | permissionsCreated
  | dispose
deriving DecidableEq, Repr

/-- Dispatch of one event to the member function that handles it. -/
def RelayedStreamingAllocation.handle (a : RelayedStreamingAllocation) : Event → Result
  | .stateChange st => a.onClientStateChange st
  | .connectionCreated socket peerAddr fault => a.onRelayConnectionCreated socket peerAddr fault
  | .connectionClosed socket peerAddress fault =>
    a.onRelayConnectionClosed socket peerAddress fault
  | .dataReceived data peerAddr => a.onRelayDataReceived data peerAddr
  | .permissionsCreated => a.onAllocationPermissionsCreated
  | .dispose => a.dispose

/-- Events delivered one after the other; delivery stops where `assert(0)` is
reached. -/
def RelayedStreamingAllocation.run (a : RelayedStreamingAllocation) : List Event → Result
  | [] => { state := a, effects := [], aborted := false }
  | e :: es =>
    let r := a.handle e
    if r.aborted then r
    else
      let rest := RelayedStreamingAllocation.run r.state es
      { rest with effects := r.effects ++ rest.effects }

/-- No relay event reaches the allocation once dispose() has taken effect:
every event of the sequence other than a dispose() call is delivered while
`deleted` is false (nothing is delivered after an `assert(0)` either). -/
def RelayedStreamingAllocation.deliveredLive (a : RelayedStreamingAllocation) :
    List Event → Bool
  | [] => true
  | e :: es =>
    (decide (e = Event.dispose) || !a.deleted)
      && ((a.handle e).aborted
          || RelayedStreamingAllocation.deliveredLive (a.handle e).state es)

/-! ## RelayedStreamingResponder -/

/-- Modelled from the spec: `http::ServerConnection` is not under src/; the
connection knows the host of its peer and records the response headers set,
the payloads sent and whether it was closed. -/
structure ServerConnection where
  peerHost : String
  responseHeaders : List (String × String)
  sent : List String
  closed : Bool
deriving DecidableEq, Repr

/-- Modelled from the spec: a connection on which a request from `peerHost`
has arrived and nothing has been answered yet. -/
def ServerConnection.accept (peerHost : String) : ServerConnection :=
  { peerHost := peerHost, responseHeaders := [], sent := [], closed := false }

/-- Modelled from the spec: `http::Response::set`, which sets a header. -/
def ServerConnection.setHeader (c : ServerConnection) (key value : String) : ServerConnection :=
  { c with responseHeaders := c.responseHeaders.filter (fun h => h.1 ≠ key) ++ [(key, value)] }

/-- Modelled from the spec: `http::ServerConnection::send`. -/
def ServerConnection.send (c : ServerConnection) (bytes : String) : ServerConnection :=
  { c with sent := c.sent ++ [bytes] }

/-- Modelled from the spec: `http::ServerConnection::close`. -/
def ServerConnection.close (c : ServerConnection) : ServerConnection :=
  { c with closed := true }

/-- The macro `RELAY_USERNAME` (line 10). -/
def RELAY_USERNAME : String := "user"

/-- The macro `RELAY_PASSWORD` (line 11). -/
def RELAY_PASSWORD : String := "illusion"

/-- The data members of `RelayedStreamingResponder` that the file uses, with
the connection of the `http::ServerResponder` base; the allocation pointer is
null until `onRequest`. -/
structure RelayedStreamingResponder where
  connection : ServerConnection
  options : StreamingOptions
  allocation : Option RelayedStreamingAllocation
deriving DecidableEq, Repr

/-- What a member function of the responder leaves behind. -/
structure BridgeResult where
  state : RelayedStreamingResponder
  effects : List Effect
  aborted : Bool
deriving DecidableEq, Repr

namespace RelayedStreamingResponder

/-- The constructor (lines 202-207). -/
def new (connection : ServerConnection) (options : StreamingOptions) :
    RelayedStreamingResponder :=
  { connection := connection, options := options, allocation := none }

/-- The member `onRequest` (lines 214-236); `kRelayServerIP` is a constant of
`mediaserver.h`, and `fault` is the call of `initiate` that throws, if any. -/
def onRequest (r : RelayedStreamingResponder) (kRelayServerIP : String)
    (fault : Option RelayedStreamingAllocation.InitiateFault) : BridgeResult :=
  let co : ClientOptions :=
    { serverAddr := { host := kRelayServerIP, port := 3478 }
      lifetime := 120 * 1000
      timeout := 10 * 1000
      timerInterval := 3 * 1000
      username := RELAY_USERNAME
      password := RELAY_PASSWORD }
  let a := RelayedStreamingAllocation.new r.options co r.connection.peerHost
  let a1 := { a with AllocationCreated := a.AllocationCreated.connect .responderOnAllocationCreated }
  let i := a1.initiate fault
  { state := { r with allocation := some i.state }
    effects := [Effect.log .debug "Running: ",
      Effect.newAllocation r.connection.peerHost co,
      Effect.signalConnect .responderOnAllocationCreated] ++ i.effects
    aborted := i.aborted }

/-- The member `onAllocationCreated` (lines 238-248); `relayed` is what
`client.relayedAddress()` returns at the time of the call.  The slot is
connected only after `allocation` has been assigned, so the null branch is
never called; it is there to make the function total. -/
def onAllocationCreated (r : RelayedStreamingResponder) (relayed : Address) : BridgeResult :=
  match r.allocation with
  | none => { state := r, effects := [], aborted := false }
  | some a =>
    let a1 := { a with
      AllocationCreated := a.AllocationCreated.disconnect .responderOnAllocationCreated }
    let address := relayed.toString
    { state := { r with
        allocation := some a1
        connection :=
          ((r.connection.setHeader "Access-Control-Allow-Origin" "*").send address).close }
      effects := [Effect.signalDisconnect .responderOnAllocationCreated,
        Effect.clientRelayedAddress,
        Effect.log .debug "Allocation Created: ",
        Effect.responseSet "Access-Control-Allow-Origin" "*",
        Effect.connectionSend address,
        Effect.connectionClose]
      aborted := false }

/-- The member function a connected slot stands for. -/
def invoke (r : RelayedStreamingResponder) (relayed : Address) : Slot → BridgeResult
  | .responderOnAllocationCreated => r.onAllocationCreated relayed

/-- Modelled from the spec: `Signal::emit` calls the slots that are connected
when the emission starts, in order of connection. -/
def emit (r : RelayedStreamingResponder) (relayed : Address) : List Slot → BridgeResult
  | [] => { state := r, effects := [], aborted := false }
  | x :: xs =>
    let h := r.invoke relayed x
    let rest := emit h.state relayed xs
    { rest with effects := h.effects ++ rest.effects }

/-- One relay event reaching the allocation of the responder: the allocation
handles it, and an `AllocationCreated.emit` (the last statement of the handler
that makes it) calls the connected slots. -/
def deliver (r : RelayedStreamingResponder) (relayed : Address) (e : Event) : BridgeResult :=
  match r.allocation with
  | none => { state := r, effects := [], aborted := false }
  | some a =>
    let h := a.handle e
    let r1 := { r with allocation := some h.state }
    if Effect.emitAllocationCreated ∈ h.effects then
      let d := r1.emit relayed h.state.AllocationCreated.slots
      { state := d.state, effects := h.effects ++ d.effects, aborted := h.aborted }
    else
      { state := r1, effects := h.effects, aborted := h.aborted }

/-- Relay events delivered one after the other, each with the relayed address
the client reports at that time; delivery stops where `assert(0)` is reached. -/
def run (r : RelayedStreamingResponder) : List (Address × Event) → BridgeResult
  | [] => { state := r, effects := [], aborted := false }
  | e :: es =>
    let h := r.deliver e.1 e.2
    if h.aborted then h
    else
      let rest := run h.state es
      { rest with effects := h.effects ++ rest.effects }

/-- A whole session of a responder: the request, then the relay events. -/
def session (r : RelayedStreamingResponder) (kRelayServerIP : String)
    (fault : Option RelayedStreamingAllocation.InitiateFault)
    (events : List (Address × Event)) : BridgeResult :=
  let q := r.onRequest kRelayServerIP fault
  if q.aborted then q
  else
    let rest := q.state.run events
    { rest with effects := q.effects ++ rest.effects }

end RelayedStreamingResponder

/-! ## Sample values -/

/-- Streaming options used in the concrete instances below. -/
def sampleOptions : StreamingOptions :=
  { oformat := "MJPEG", encoding := "Base64", framing := "multipart" }

/-- Relay-client options used in the concrete instances below. -/
def sampleClientOptions : ClientOptions :=
  { serverAddr := { host := "192.0.2.1", port := 3478 }
    lifetime := 120000
    timeout := 10000
    timerInterval := 3000
    username := RELAY_USERNAME
    password := RELAY_PASSWORD }

/-- A freshly constructed allocation for the peer `198.51.100.7`. -/
def sampleAllocation : RelayedStreamingAllocation :=
  RelayedStreamingAllocation.new sampleOptions sampleClientOptions "198.51.100.7"

/-- An allocation on which dispose() has taken effect: `deleted` is true. -/
def sampleDisposed : RelayedStreamingAllocation :=
  sampleAllocation.dispose.state

/-- A peer address. -/
def peerA : Address := { host := "198.51.100.7", port := 5000 }

/-- Another peer address. -/
def peerB : Address := { host := "198.51.100.8", port := 5001 }

end scy

/-! ## Lemmas on the registry -/

namespace scy

open RelayedStreamingAllocation

theorem StreamManager.size_remove_le (m : StreamManager) (name : String) :
    (m.remove name).2.size ≤ m.size := by
  unfold StreamManager.remove StreamManager.size
  split
  · exact Nat.le_refl _
  · exact List.length_eraseP_le _

theorem StreamManager.size_addStream_empty (m : StreamManager) (s : PacketStream)
    (h : m.size = 0) : (m.addStream s).size = 1 := by
  unfold StreamManager.size at h
  have hnil : m.entries = [] := List.length_eq_zero.mp h
  simp [StreamManager.addStream, StreamManager.size, hnil]

theorem RelayedStreamingAllocation.dispose_size_le (a : RelayedStreamingAllocation) :
    a.dispose.state.streams.size ≤ a.streams.size := by
  unfold dispose
  split
  · exact Nat.le_refl _
  · simp [StreamManager.closeAll, StreamManager.size]

theorem RelayedStreamingAllocation.closedTry_size_le (a : RelayedStreamingAllocation)
    (socket : Socket) (peerAddress : Address) (fault : Option ClosedFault) :
    (closedTry a socket peerAddress fault).state.streams.size ≤ a.streams.size := by
  have hrem := StreamManager.size_remove_le a.streams peerAddress.toString
  unfold closedTry
  split
  · exact Nat.le_refl _
  · split
    · rename_i heq
      rw [heq] at hrem
      exact hrem
    · rename_i heq
      rw [heq] at hrem
      split <;> exact hrem

theorem RelayedStreamingAllocation.handle_size_le_one (a : RelayedStreamingAllocation)
    (e : Event) (h : a.streams.size ≤ 1) : (a.handle e).state.streams.size ≤ 1 := by
  cases e with
  | stateChange st => cases st <;> exact h
  | connectionCreated socket peerAddr fault =>
    simp only [handle, onRelayConnectionCreated]
    split
    · exact h
    · rename_i hne
      have h0 : a.streams.size = 0 := by
        have : a.streams.size ≠ 1 := by simpa using hne
        omega
      cases fault with
      | none => simp [StreamManager.size_addStream_empty _ _ h0]
      | some f => exact h
  | connectionClosed socket peerAddress fault =>
    have ht := closedTry_size_le a socket peerAddress fault
    simp only [handle, onRelayConnectionClosed]
    split
    · exact Nat.le_trans ht h
    · split
      · exact Nat.le_trans (dispose_size_le _) (Nat.le_trans ht h)
      · exact Nat.le_trans ht h
  | dataReceived data peerAddr => exact h
  | permissionsCreated => exact h
  | dispose => exact Nat.le_trans (dispose_size_le a) h

theorem RelayedStreamingAllocation.run_size_le_one (events : List Event) :
    ∀ a : RelayedStreamingAllocation, a.streams.size ≤ 1 →
      (a.run events).state.streams.size ≤ 1 := by
  induction events with
  | nil => intro a h; exact h
  | cons e es ih =>
    intro a h
    have hstep := handle_size_le_one a e h
    simp only [run]
    split
    · exact hstep
    · exact ih _ hstep

/-! ## C1 -/

/-- C1: for every finite sequence of events (state change, connection-created,
connection-closed, data-received, permissions-created, dispose, with or
without a throwing collaborator) applied to a freshly constructed allocation,
the registry `streams` holds 0 or 1 entries after every event, that is after
every initial part of the sequence. -/
theorem C1_registry_size_zero_or_one (options : StreamingOptions) (clientOptions : ClientOptions)
    (peerIP : String) (events : List Event) (n : Nat) :
    ((RelayedStreamingAllocation.new options clientOptions peerIP).run
        (events.take n)).state.streams.size = 0
      ∨ ((RelayedStreamingAllocation.new options clientOptions peerIP).run
        (events.take n)).state.streams.size = 1 := by
  have h := run_size_le_one (events.take n)
    (RelayedStreamingAllocation.new options clientOptions peerIP)
    (by simp [RelayedStreamingAllocation.new, StreamManager.size])
  omega

/-! ## Lemmas on `dispose` -/

theorem RelayedStreamingAllocation.dispose_of_deleted (a : RelayedStreamingAllocation)
    (h : a.deleted = true) :
    a.dispose = { state := a, effects := [Effect.log .debug "Terminating"], aborted := false } := by
  simp [dispose, h]

theorem RelayedStreamingAllocation.dispose_of_live (a : RelayedStreamingAllocation)
    (h : a.deleted = false) :
    a.dispose =
      { state := { a with streams := { entries := [] }, deleted := true }
        effects := [Effect.log .debug "Terminating", Effect.clientShutdown,
            Effect.streamsCloseAll]
          ++ a.streams.entries.map (fun e => Effect.streamClose e.name)
          ++ [Effect.deleteLater, Effect.assignDeleted true]
        aborted := false } := by
  simp [dispose, h, StreamManager.closeAll]

theorem RelayedStreamingAllocation.run_dispose_of_deleted (n : Nat)
    (a : RelayedStreamingAllocation) (h : a.deleted = true) :
    a.run (List.replicate n Event.dispose) =
      { state := a
        effects := List.replicate n (Effect.log .debug "Terminating")
        aborted := false } := by
  induction n with
  | zero => rfl
  | succ k ih =>
    simp [List.replicate_succ, run, handle, dispose_of_deleted a h, ih]

theorem count_streamClose_map (x : Effect) (l : List PacketStream)
    (hx : ∀ name, x ≠ Effect.streamClose name) :
    (l.map (fun e => Effect.streamClose e.name)).count x = 0 := by
  rw [List.count_eq_zero]
  intro hmem
  obtain ⟨e, _, he⟩ := List.mem_map.mp hmem
  exact hx e.name he.symm

theorem count_log_replicate (x : Effect) (n : Nat) (level : LogLevel) (msg : String)
    (hx : x ≠ Effect.log level msg) :
    (List.replicate n (Effect.log level msg)).count x = 0 := by
  rw [List.count_eq_zero]
  intro hmem
  exact hx (List.eq_of_mem_replicate hmem)

/-! ## C2 -/

/-- C2: calling dispose() n ≥ 1 times in a row on an allocation that is not yet
disposed produces exactly one relay-client shutdown, one close-all of the
registry and one scheduled destruction; the state after the n calls is the
state after the first one, and the collaborator effects of the n calls are
those of the first one, so a call after the first changes nothing and has no
collaborator effect. -/
theorem C2_dispose_n_times (a : RelayedStreamingAllocation) (h : a.deleted = false)
    (n : Nat) (hn : 1 ≤ n) :
    (a.run (List.replicate n Event.dispose)).effects.count Effect.clientShutdown = 1
      ∧ (a.run (List.replicate n Event.dispose)).effects.count Effect.streamsCloseAll = 1
      ∧ (a.run (List.replicate n Event.dispose)).effects.count Effect.deleteLater = 1
      ∧ (a.run (List.replicate n Event.dispose)).state = a.dispose.state
      ∧ (a.run (List.replicate n Event.dispose)).effects.filter Effect.isCollab
          = a.dispose.effects.filter Effect.isCollab
      ∧ (a.run (List.replicate n Event.dispose)).aborted = false := by
  obtain ⟨k, rfl⟩ : ∃ k, n = k + 1 := ⟨n - 1, by omega⟩
  have hd : a.dispose.state.deleted = true := by simp [dispose_of_live a h]
  have hrun : a.run (List.replicate (k + 1) Event.dispose) =
      { state := a.dispose.state
        effects := a.dispose.effects ++ List.replicate k (Effect.log .debug "Terminating")
        aborted := false } := by
    have hab : a.dispose.aborted = false := by simp [dispose_of_live a h]
    rw [List.replicate_succ]
    simp only [run, handle, hab]
    rw [run_dispose_of_deleted k _ hd]
    simp
  rw [hrun, dispose_of_live a h]
  refine ⟨?_, ?_, ?_, rfl, ?_, rfl⟩
  · simp [List.count_cons, count_streamClose_map, count_log_replicate]
  · simp [List.count_cons, count_streamClose_map, count_log_replicate]
  · simp [List.count_cons, count_streamClose_map, count_log_replicate]
  · simp [List.filter_append, Effect.isCollab, List.filter_replicate]

/-- C2 at a concrete input: three dispose() calls on a fresh allocation. -/
theorem C2_dispose_n_times_witness :
    (sampleAllocation.run (List.replicate 3 Event.dispose)).effects.count
        Effect.clientShutdown = 1
      ∧ (sampleAllocation.run (List.replicate 3 Event.dispose)).effects.count
        Effect.streamsCloseAll = 1
      ∧ (sampleAllocation.run (List.replicate 3 Event.dispose)).effects.count
        Effect.deleteLater = 1
      ∧ (sampleAllocation.run (List.replicate 3 Event.dispose)).state
        = sampleAllocation.dispose.state
      ∧ (sampleAllocation.run (List.replicate 3 Event.dispose)).effects.filter Effect.isCollab
          = sampleAllocation.dispose.effects.filter Effect.isCollab
      ∧ (sampleAllocation.run (List.replicate 3 Event.dispose)).aborted = false :=
  C2_dispose_n_times sampleAllocation (by decide) 3 (by decide)

/-! ## C3 -/

theorem RelayedStreamingAllocation.closedTry_deleted (a : RelayedStreamingAllocation)
    (socket : Socket) (peerAddress : Address) (fault : Option ClosedFault) :
    (closedTry a socket peerAddress fault).state.deleted = a.deleted := by
  unfold closedTry
  split
  · rfl
  · split
    · rfl
    · split <;> rfl

theorem RelayedStreamingAllocation.closedTry_no_teardown (a : RelayedStreamingAllocation)
    (socket : Socket) (peerAddress : Address) (fault : Option ClosedFault) :
    (closedTry a socket peerAddress fault).effects.filter Effect.isTeardown = [] := by
  unfold closedTry
  split
  · rfl
  · split
    · rfl
    · split <;> rfl

theorem RelayedStreamingAllocation.created_no_teardown (a : RelayedStreamingAllocation)
    (socket : Socket) (peerAddr : Address) (fault : Option CreatedFault) :
    (a.onRelayConnectionCreated socket peerAddr fault).effects.filter Effect.isTeardown = [] := by
  unfold onRelayConnectionCreated
  split
  · rfl
  · cases fault with
    | none => rfl
    | some f => cases f <;> simp [createdCalls, List.takeWhile, Effect.isTeardown]

/-- C3, the claim at a concrete input: on an allocation whose `deleted` flag
is true, an Active delivery still emits AllocationCreated, and a
connection-created event still notifies, constructs, starts and inserts a
stream, so the state changes. -/
theorem C3_handlers_ignore_deleted_flag :
    sampleDisposed.deleted = true
      ∧ (sampleDisposed.handle (.stateChange .Success)).effects.filter Effect.isCollab
          = [Effect.emitAllocationCreated]
      ∧ (sampleDisposed.handle (.connectionCreated 7 peerA none)).state ≠ sampleDisposed
      ∧ (sampleDisposed.handle (.connectionCreated 7 peerA none)).state.streams.size = 1
      ∧ (sampleDisposed.handle (.connectionCreated 7 peerA none)).effects.filter Effect.isCollab
          = [Effect.emitConnectionCreated peerA,
             Effect.newPacketStream "198.51.100.7:5000",
             Effect.setupPacketStream "198.51.100.7:5000" sampleOptions true true,
             Effect.emitterAttach "198.51.100.7:5000" 7,
             Effect.streamStart "198.51.100.7:5000",
             Effect.streamsAddStream "198.51.100.7:5000"] := by
  decide

/-- C3 as amended: only dispose() reads the `deleted` flag.  On a state in
which `deleted` is true, every event leaves the flag true and performs no
teardown effect; dispose(), data-received, permissions-created and a state
change other than Success leave the state unchanged and perform no
collaborator effect; a Success delivery leaves the state unchanged and emits
AllocationCreated; connection-created does what it does when the flag is
clear (rejects at registry size 1, admits otherwise); connection-closed
leaves the state and the collaborator effects of its `try` block. -/
theorem C3_deleted_state_events (a : RelayedStreamingAllocation) (h : a.deleted = true) :
    (∀ e : Event, (a.handle e).state.deleted = true
        ∧ (a.handle e).effects.filter Effect.isTeardown = [])
      ∧ (a.dispose.state = a ∧ a.dispose.effects.filter Effect.isCollab = [])
      ∧ (∀ data peerAddr, (a.onRelayDataReceived data peerAddr).state = a
          ∧ (a.onRelayDataReceived data peerAddr).effects.filter Effect.isCollab = [])
      ∧ (a.onAllocationPermissionsCreated.state = a
          ∧ a.onAllocationPermissionsCreated.effects.filter Effect.isCollab = [])
      ∧ (∀ st, (a.onClientStateChange st).state = a
          ∧ (a.onClientStateChange st).effects.filter Effect.isCollab
              = if st = ClientStateId.Success then [Effect.emitAllocationCreated] else [])
      ∧ (∀ socket peerAddr fault,
          (a.onRelayConnectionCreated socket peerAddr fault).effects
              = (({ a with deleted := false }).onRelayConnectionCreated
                  socket peerAddr fault).effects
          ∧ (a.onRelayConnectionCreated socket peerAddr fault).state.streams
              = (({ a with deleted := false }).onRelayConnectionCreated
                  socket peerAddr fault).state.streams)
      ∧ (∀ socket peerAddress fault,
          (a.onRelayConnectionClosed socket peerAddress fault).state
              = (closedTry a socket peerAddress fault).state
          ∧ (a.onRelayConnectionClosed socket peerAddress fault).effects.filter Effect.isCollab
              = (closedTry a socket peerAddress fault).effects.filter Effect.isCollab) := by
  refine ⟨?_, ?_, ?_, ?_, ?_, ?_, ?_⟩
  · intro e
    cases e with
    | stateChange st => cases st <;> exact ⟨h, rfl⟩
    | connectionCreated socket peerAddr fault =>
      refine ⟨?_, created_no_teardown a socket peerAddr fault⟩
      simp only [handle, onRelayConnectionCreated]
      split
      · exact h
      · cases fault <;> exact h
    | connectionClosed socket peerAddress fault =>
      have hd := closedTry_deleted a socket peerAddress fault
      have ht := closedTry_no_teardown a socket peerAddress fault
      rw [h] at hd
      simp only [handle, onRelayConnectionClosed]
      split
      · exact ⟨hd, by simpa [Effect.isTeardown] using ht⟩
      · split
        · rw [dispose_of_deleted _ hd]
          exact ⟨hd, by simpa [Effect.isTeardown, List.filter_append] using ht⟩
        · exact ⟨hd, by simpa [Effect.isTeardown] using ht⟩
    | dataReceived data peerAddr => exact ⟨h, rfl⟩
    | permissionsCreated => exact ⟨h, rfl⟩
    | dispose =>
      simp only [handle]
      rw [dispose_of_deleted a h]
      exact ⟨h, rfl⟩
  · rw [dispose_of_deleted a h]
    exact ⟨rfl, rfl⟩
  · intro data peerAddr
    exact ⟨rfl, rfl⟩
  · exact ⟨rfl, rfl⟩
  · intro st
    cases st <;> exact ⟨rfl, rfl⟩
  · intro socket peerAddr fault
    unfold onRelayConnectionCreated
    constructor
    · split
      · rfl
      · cases fault <;> rfl
    · split
      · rfl
      · cases fault <;> rfl
  · intro socket peerAddress fault
    have hd := closedTry_deleted a socket peerAddress fault
    rw [h] at hd
    simp only [onRelayConnectionClosed]
    split
    · exact ⟨rfl, by simp [Effect.isCollab]⟩
    · split
      · rw [dispose_of_deleted _ hd]
        exact ⟨rfl, by simp [Effect.isCollab, List.filter_append]⟩
      · exact ⟨rfl, by simp [Effect.isCollab]⟩

/-- C3 as amended, at the disposed sample allocation. -/
theorem C3_deleted_state_events_witness :
    sampleDisposed.deleted = true
      ∧ (sampleDisposed.handle (.connectionClosed 7 peerA none)).state.deleted = true
      ∧ (sampleDisposed.handle (.connectionClosed 7 peerA none)).effects.filter
          Effect.isTeardown = [] :=
  ⟨by decide,
   ((C3_deleted_state_events sampleDisposed (by decide)).1 (.connectionClosed 7 peerA none)).1,
   ((C3_deleted_state_events sampleDisposed (by decide)).1 (.connectionClosed 7 peerA none)).2⟩

/-! ## C4 -/

theorem StreamManager.remove_absent (m : StreamManager) (name : String)
    (h : ∀ e ∈ m.entries, e.name ≠ name) : m.remove name = (none, m) := by
  have hfind : m.entries.find? (fun e => e.name == name) = none := by
    rw [List.find?_eq_none]
    intro e he
    simpa using h e he
  simp [StreamManager.remove, hfind]

theorem RelayedStreamingAllocation.closedTry_absent (a : RelayedStreamingAllocation)
    (socket : Socket) (X : Address) (h : ∀ e ∈ a.streams.entries, e.name ≠ X.toString) :
    closedTry a socket X none =
      { state := a, effects := [Effect.streamsRemove X.toString], aborted := false } := by
  simp [closedTry, StreamManager.remove_absent a.streams X.toString h]

/-- C4, the claim at a concrete input: on a fresh allocation (empty registry,
not disposed) connection-closed for a peer that was never admitted is not a
no-op: the handler goes on to dispose(), which shuts the relay client down,
closes the registry, schedules the destruction and sets `deleted`. -/
theorem C4_unknown_close_disposes :
    (∀ e ∈ sampleAllocation.streams.entries, e.name ≠ peerA.toString)
      ∧ sampleAllocation.deleted = false
      ∧ (sampleAllocation.handle (.connectionClosed 7 peerA none)).state.deleted = true
      ∧ (sampleAllocation.handle (.connectionClosed 7 peerA none)).effects.filter
          Effect.isTeardown
          = [Effect.clientShutdown, Effect.streamsCloseAll, Effect.deleteLater] := by
  refine ⟨?_, ?_, ?_, ?_⟩
  · intro e he
    simp [sampleAllocation, RelayedStreamingAllocation.new] at he
  · decide
  · decide
  · decide

/-- C4 as amended: for every state and every peer address X without an entry
in the registry, connection-closed(X) (no collaborator failing) raises no
error and leaves the registry unchanged.  When the registry holds an entry of
another peer, or the allocation is already disposed, the handler also leaves
the whole state unchanged and performs no teardown effect.  When the registry
is empty and the allocation is not yet disposed, the handler calls dispose():
the state and effects are those of dispose(), the flag becomes true. -/
theorem C4_unknown_close (a : RelayedStreamingAllocation) (socket : Socket) (X : Address)
    (h : ∀ e ∈ a.streams.entries, e.name ≠ X.toString) :
    (a.onRelayConnectionClosed socket X none).aborted = false
      ∧ (a.onRelayConnectionClosed socket X none).state.streams = a.streams
      ∧ (a.streams.empty = false ∨ a.deleted = true →
          (a.onRelayConnectionClosed socket X none).state = a
          ∧ (a.onRelayConnectionClosed socket X none).effects.filter Effect.isTeardown = [])
      ∧ (a.streams.empty = true → a.deleted = false →
          (a.onRelayConnectionClosed socket X none).state = a.dispose.state
          ∧ (a.onRelayConnectionClosed socket X none).state.deleted = true
          ∧ (a.onRelayConnectionClosed socket X none).effects
              = [Effect.log .debug "Connection closed: ", Effect.streamsRemove X.toString]
                ++ a.dispose.effects
          ∧ (a.onRelayConnectionClosed socket X none).effects.filter Effect.isTeardown
              = [Effect.clientShutdown, Effect.streamsCloseAll, Effect.deleteLater]) := by
  have ht := closedTry_absent a socket X h
  cases hempty : a.streams.empty with
  | false =>
    have hr : a.onRelayConnectionClosed socket X none =
        { state := a
          effects := [Effect.log .debug "Connection closed: ",
            Effect.streamsRemove X.toString]
          aborted := false } := by
      simp [onRelayConnectionClosed, ht, hempty]
    rw [hr]
    refine ⟨rfl, rfl, fun _ => ⟨rfl, rfl⟩, fun hc => by simp at hc⟩
  | true =>
    have hnil : a.streams.entries = [] := by
      simpa [StreamManager.empty, List.isEmpty_iff] using hempty
    have hr : a.onRelayConnectionClosed socket X none =
        { state := a.dispose.state
          effects := [Effect.log .debug "Connection closed: ",
            Effect.streamsRemove X.toString] ++ a.dispose.effects
          aborted := false } := by
      simp [onRelayConnectionClosed, ht, hempty]
    rw [hr]
    cases hdel : a.deleted with
    | true =>
      rw [dispose_of_deleted a hdel]
      refine ⟨rfl, rfl, fun _ => ⟨rfl, rfl⟩, fun _ hc => by simp at hc⟩
    | false =>
      rw [dispose_of_live a hdel]
      refine ⟨rfl, ?_, fun hc => by simp at hc, fun _ _ => ⟨rfl, rfl, rfl, ?_⟩⟩
      · cases hs : a.streams with
        | mk entries =>
          rw [hs] at hnil
          simp at hnil
          simp [hnil]
      · simp [hnil, Effect.isTeardown]

/-- C4 as amended, at a concrete input: the registry holds the stream of
`peerA`, and connection-closed arrives for `peerB`. -/
theorem C4_unknown_close_witness :
    (∀ e ∈ (sampleAllocation.handle (.connectionCreated 7 peerA none)).state.streams.entries,
        e.name ≠ peerB.toString)
      ∧ ((sampleAllocation.handle (.connectionCreated 7 peerA none)).state.onRelayConnectionClosed
          8 peerB none).state
          = (sampleAllocation.handle (.connectionCreated 7 peerA none)).state :=
  ⟨by decide,
   ((C4_unknown_close (sampleAllocation.handle (.connectionCreated 7 peerA none)).state 8 peerB
      (by decide)).2.2.1 (Or.inl (by decide))).1⟩

/-! ## C5 -/

theorem RelayedStreamingAllocation.count_emit_dispose (a : RelayedStreamingAllocation) :
    a.dispose.effects.count Effect.emitAllocationCreated = 0 := by
  cases hdel : a.deleted with
  | true => rw [dispose_of_deleted a hdel]; rfl
  | false =>
    rw [dispose_of_live a hdel]
    simp [List.count_cons, count_streamClose_map]

theorem RelayedStreamingAllocation.count_emit_closedTry (a : RelayedStreamingAllocation)
    (socket : Socket) (peerAddress : Address) (fault : Option ClosedFault) :
    (closedTry a socket peerAddress fault).effects.count Effect.emitAllocationCreated = 0 := by
  unfold closedTry
  split
  · rfl
  · split
    · simp [List.count_cons]
    · split <;> simp [List.count_cons]

theorem RelayedStreamingAllocation.count_emit_handle (a : RelayedStreamingAllocation)
    (e : Event) :
    (a.handle e).effects.count Effect.emitAllocationCreated
      = if e = Event.stateChange ClientStateId.Success then 1 else 0 := by
  cases e with
  | stateChange st => cases st <;> simp [handle, onClientStateChange, List.count_cons]
  | connectionCreated socket peerAddr fault =>
    simp only [handle, onRelayConnectionCreated]
    split
    · simp [List.count_cons]
    · cases fault with
      | none => simp [createdCalls, List.count_cons]
      | some f => cases f <;> simp [createdCalls, List.takeWhile, List.count_cons]
  | connectionClosed socket peerAddress fault =>
    have ht := count_emit_closedTry a socket peerAddress fault
    simp only [handle, onRelayConnectionClosed]
    split
    · simp [List.count_cons, ht]
    · split
      · simp [List.count_cons, ht, count_emit_dispose]
      · simp [List.count_cons, ht]
  | dataReceived data peerAddr => simp [handle, onRelayDataReceived, List.count_cons]
  | permissionsCreated => simp [handle, onAllocationPermissionsCreated, List.count_cons]
  | dispose => simp [handle, count_emit_dispose]

/-- C5, the claim at a concrete input: two Success deliveries to a fresh
allocation emit AllocationCreated twice, the second delivery emitting as the
first did. -/
theorem C5_second_active_emits_again :
    (sampleAllocation.run [.stateChange .Success, .stateChange .Success]).effects.count
        Effect.emitAllocationCreated = 2
      ∧ ((sampleAllocation.run [.stateChange .Success]).state.handle
          (.stateChange .Success)).effects.filter Effect.isCollab
          = [Effect.emitAllocationCreated] := by
  decide

/-- C5 as amended: the allocation emits AllocationCreated on every Success
delivery.  In every event sequence that is delivered to its end (no
`assert(0)` reached), from any state, the number of AllocationCreated
emissions equals the number of Success deliveries. -/
theorem C5_emit_per_active_delivery (events : List Event) :
    ∀ a : RelayedStreamingAllocation, (a.run events).aborted = false →
      (a.run events).effects.count Effect.emitAllocationCreated
        = events.count (Event.stateChange ClientStateId.Success) := by
  induction events with
  | nil => intro a _; rfl
  | cons e es ih =>
    intro a hrun
    have hc := count_emit_handle a e
    simp only [run] at hrun ⊢
    split at hrun
    · rename_i hab
      rw [hab] at hrun
      exact absurd hrun (by decide)
    · rename_i hab
      rw [if_neg hab]
      have hrest := ih (a.handle e).state hrun
      simp only [List.count_append, hc, hrest, List.count_cons]
      by_cases he : e = Event.stateChange ClientStateId.Success
      · simp [he]; omega
      · have he2 : ¬ (Event.stateChange ClientStateId.Success = e) := fun h => he h.symm
        simp [he, he2]

/-- C5 as amended, at a concrete input: three Success deliveries around a
Failed one. -/
theorem C5_emit_per_active_delivery_witness :
    (sampleAllocation.run
        [.stateChange .Success, .stateChange .Failed, .stateChange .Success,
         .stateChange .Success]).aborted = false
      ∧ (sampleAllocation.run
        [.stateChange .Success, .stateChange .Failed, .stateChange .Success,
         .stateChange .Success]).effects.count Effect.emitAllocationCreated
        = [Event.stateChange .Success, .stateChange .Failed, .stateChange .Success,
           .stateChange .Success].count (Event.stateChange ClientStateId.Success) :=
  ⟨by decide,
   C5_emit_per_active_delivery
     [.stateChange .Success, .stateChange .Failed, .stateChange .Success, .stateChange .Success]
     sampleAllocation (by decide)⟩

/-! ## C6 -/

theorem RelayedStreamingAllocation.run_ready_created (options : StreamingOptions)
    (clientOptions : ClientOptions) (peerIP : String) (socket : Socket) (A : Address) :
    (RelayedStreamingAllocation.new options clientOptions peerIP).run
        [.stateChange .Success, .connectionCreated socket A none] =
      { state := { RelayedStreamingAllocation.new options clientOptions peerIP with
          streams := { entries :=
            [{ name := A.toString, options := some options, sinks := [socket],
               started := true }] } }
        effects := [Effect.log .debug "Relay state changed: ", Effect.emitAllocationCreated,
          Effect.log .debug "Connection created: ", Effect.emitConnectionCreated A,
          Effect.newPacketStream A.toString,
          Effect.setupPacketStream A.toString options true true,
          Effect.emitterAttach A.toString socket, Effect.streamStart A.toString,
          Effect.streamsAddStream A.toString]
        aborted := false } := by
  simp [run, handle, RelayedStreamingAllocation.new, onClientStateChange,
    onRelayConnectionCreated, StreamManager.size, StreamManager.addStream, createdStream,
    createdCalls]

/-- C6: for all peer addresses A and B (and all send handles), after ready and
connection-created(A) on a fresh allocation the registry holds exactly the
entry of A, and connection-created(B) is then rejected whatever the
collaborators would do: the state is unchanged, so the registry still holds
exactly the entry of A, and the only effects are the two log lines (no
ConnectionCreated notification, no stream constructed, bound or started). -/
theorem C6_second_connection_rejected (options : StreamingOptions)
    (clientOptions : ClientOptions) (peerIP : String) (socketA socketB : Socket)
    (A B : Address) (fault : Option CreatedFault) :
    ((RelayedStreamingAllocation.new options clientOptions peerIP).run
        [.stateChange .Success, .connectionCreated socketA A none]).state.streams.entries
        = [{ name := A.toString, options := some options, sinks := [socketA], started := true }]
      ∧ (((RelayedStreamingAllocation.new options clientOptions peerIP).run
          [.stateChange .Success, .connectionCreated socketA A none]).state.handle
            (.connectionCreated socketB B fault))
        = { state := ((RelayedStreamingAllocation.new options clientOptions peerIP).run
              [.stateChange .Success, .connectionCreated socketA A none]).state
            effects := [Effect.log .debug "Connection created: ",
              Effect.log .debug "Rejecting connection"]
            aborted := false }
      ∧ ((RelayedStreamingAllocation.new options clientOptions peerIP).run
          [.stateChange .Success, .connectionCreated socketA A none,
           .connectionCreated socketB B fault]).state.streams.entries
        = [{ name := A.toString, options := some options, sinks := [socketA], started := true }]
      ∧ ((RelayedStreamingAllocation.new options clientOptions peerIP).run
          [.stateChange .Success, .connectionCreated socketA A none,
           .connectionCreated socketB B fault]).effects.filter Effect.isCollab
        = ((RelayedStreamingAllocation.new options clientOptions peerIP).run
          [.stateChange .Success, .connectionCreated socketA A none]).effects.filter
            Effect.isCollab := by
  rw [run_ready_created]
  refine ⟨rfl, ?_, ?_, ?_⟩
  · simp [handle, onRelayConnectionCreated, StreamManager.size]
  · simp [run, handle, RelayedStreamingAllocation.new, onClientStateChange,
      onRelayConnectionCreated, StreamManager.size, StreamManager.addStream, createdStream,
      createdCalls]
  · simp [run, handle, RelayedStreamingAllocation.new, onClientStateChange,
      onRelayConnectionCreated, StreamManager.size, StreamManager.addStream, createdStream,
      createdCalls, Effect.isCollab]

/-! ## C7 -/

/-- C7: for every peer address A and send handle, ready, connection-created(A),
connection-closed(A) on a fresh allocation runs to its end and leaves the
registry empty and `deleted` true; the trace shows the stream of A unbound
from the send handle and destroyed, then the teardown of dispose(), and
dispose() was entered once (one "Terminating" line) with one shutdown, one
close-all and one scheduled destruction. -/
theorem C7_ready_created_closed (options : StreamingOptions) (clientOptions : ClientOptions)
    (peerIP : String) (socket : Socket) (A : Address) :
    ((RelayedStreamingAllocation.new options clientOptions peerIP).run
        [.stateChange .Success, .connectionCreated socket A none,
         .connectionClosed socket A none]).state
        = { RelayedStreamingAllocation.new options clientOptions peerIP with deleted := true }
      ∧ ((RelayedStreamingAllocation.new options clientOptions peerIP).run
        [.stateChange .Success, .connectionCreated socket A none,
         .connectionClosed socket A none]).state.streams.entries = []
      ∧ ((RelayedStreamingAllocation.new options clientOptions peerIP).run
        [.stateChange .Success, .connectionCreated socket A none,
         .connectionClosed socket A none]).aborted = false
      ∧ ((RelayedStreamingAllocation.new options clientOptions peerIP).run
        [.stateChange .Success, .connectionCreated socket A none,
         .connectionClosed socket A none]).effects
        = [Effect.log .debug "Relay state changed: ", Effect.emitAllocationCreated,
           Effect.log .debug "Connection created: ", Effect.emitConnectionCreated A,
           Effect.newPacketStream A.toString,
           Effect.setupPacketStream A.toString options true true,
           Effect.emitterAttach A.toString socket, Effect.streamStart A.toString,
           Effect.streamsAddStream A.toString,
           Effect.log .debug "Connection closed: ", Effect.streamsRemove A.toString,
           Effect.emitterDetach A.toString socket, Effect.deleteStream A.toString,
           Effect.log .debug "Terminating", Effect.clientShutdown, Effect.streamsCloseAll,
           Effect.deleteLater, Effect.assignDeleted true]
      ∧ ((RelayedStreamingAllocation.new options clientOptions peerIP).run
        [.stateChange .Success, .connectionCreated socket A none,
         .connectionClosed socket A none]).effects.count
          (Effect.log .debug "Terminating") = 1
      ∧ ((RelayedStreamingAllocation.new options clientOptions peerIP).run
        [.stateChange .Success, .connectionCreated socket A none,
         .connectionClosed socket A none]).effects.count Effect.clientShutdown = 1
      ∧ ((RelayedStreamingAllocation.new options clientOptions peerIP).run
        [.stateChange .Success, .connectionCreated socket A none,
         .connectionClosed socket A none]).effects.count Effect.streamsCloseAll = 1
      ∧ ((RelayedStreamingAllocation.new options clientOptions peerIP).run
        [.stateChange .Success, .connectionCreated socket A none,
         .connectionClosed socket A none]).effects.count Effect.deleteLater = 1 := by
  have hrun : (RelayedStreamingAllocation.new options clientOptions peerIP).run
        [.stateChange .Success, .connectionCreated socket A none,
         .connectionClosed socket A none] =
      { state :=
          { RelayedStreamingAllocation.new options clientOptions peerIP with deleted := true }
        effects := [Effect.log .debug "Relay state changed: ", Effect.emitAllocationCreated,
           Effect.log .debug "Connection created: ", Effect.emitConnectionCreated A,
           Effect.newPacketStream A.toString,
           Effect.setupPacketStream A.toString options true true,
           Effect.emitterAttach A.toString socket, Effect.streamStart A.toString,
           Effect.streamsAddStream A.toString,
           Effect.log .debug "Connection closed: ", Effect.streamsRemove A.toString,
           Effect.emitterDetach A.toString socket, Effect.deleteStream A.toString,
           Effect.log .debug "Terminating", Effect.clientShutdown, Effect.streamsCloseAll,
           Effect.deleteLater, Effect.assignDeleted true]
        aborted := false } := by
    simp [run, handle, RelayedStreamingAllocation.new, onClientStateChange,
      onRelayConnectionCreated, onRelayConnectionClosed, closedTry, dispose,
      StreamManager.size, StreamManager.addStream, StreamManager.remove,
      StreamManager.closeAll, StreamManager.empty, createdStream, createdCalls]
  rw [hrun]
  refine ⟨rfl, rfl, rfl, rfl, ?_, ?_, ?_, ?_⟩ <;> simp [List.count_cons]

/-! ## C8 -/

theorem indexOf_streamClose_map (x : Effect) (l : List PacketStream) (rest : List Effect)
    (hx : ∀ name, x ≠ Effect.streamClose name) :
    (l.map (fun e => Effect.streamClose e.name) ++ rest).indexOf x
      = l.length + rest.indexOf x := by
  induction l with
  | nil => simp
  | cons e es ih =>
    have hne : (Effect.streamClose e.name == x) = false := by
      simpa using fun heq => hx e.name heq.symm
    simp only [List.map_cons, List.cons_append, List.indexOf_cons, hne, cond_false, ih,
      List.length_cons]
    omega

/-- C8: on an allocation that is not yet disposed, dispose() executes, in this
order: the log line, the relay-client shutdown, the close-all of the registry
(closing each entry), the scheduling of the deferred destruction (the only
destruction statement), and last the write `deleted = true`; the shutdown
stands right before the close-all in the trace, and afterwards the registry
is empty and `deleted` is true. -/
theorem C8_dispose_order (a : RelayedStreamingAllocation) (h : a.deleted = false) :
    a.dispose.effects
        = [Effect.log .debug "Terminating", Effect.clientShutdown, Effect.streamsCloseAll]
          ++ a.streams.entries.map (fun e => Effect.streamClose e.name)
          ++ [Effect.deleteLater, Effect.assignDeleted true]
      ∧ a.dispose.effects.indexOf Effect.clientShutdown = 1
      ∧ a.dispose.effects.indexOf Effect.streamsCloseAll = 2
      ∧ a.dispose.effects.indexOf Effect.deleteLater = 3 + a.streams.size
      ∧ a.dispose.effects.indexOf (Effect.assignDeleted true) = 4 + a.streams.size
      ∧ a.dispose.effects.length = 5 + a.streams.size
      ∧ a.dispose.state = { a with streams := { entries := [] }, deleted := true }
      ∧ a.dispose.aborted = false := by
  rw [dispose_of_live a h]
  refine ⟨rfl, ?_, ?_, ?_, ?_, ?_, rfl, rfl⟩
  · simp [List.indexOf_cons]
  · simp [List.indexOf_cons]
  · simp [List.indexOf_cons, indexOf_streamClose_map, StreamManager.size]
    omega
  · simp [List.indexOf_cons, indexOf_streamClose_map, StreamManager.size]
    omega
  · simp [StreamManager.size]
    omega

/-- C8 at a concrete input: dispose() on an allocation that holds the stream
of `peerA`. -/
theorem C8_dispose_order_witness :
    (sampleAllocation.handle (.connectionCreated 7 peerA none)).state.deleted = false
      ∧ (sampleAllocation.handle (.connectionCreated 7 peerA none)).state.dispose.effects
        = [Effect.log .debug "Terminating", Effect.clientShutdown, Effect.streamsCloseAll]
          ++ (sampleAllocation.handle
              (.connectionCreated 7 peerA none)).state.streams.entries.map
                (fun e => Effect.streamClose e.name)
          ++ [Effect.deleteLater, Effect.assignDeleted true] :=
  ⟨by decide,
   (C8_dispose_order (sampleAllocation.handle (.connectionCreated 7 peerA none)).state
      (by decide)).1⟩

/-! ## Lemmas on the responder -/

theorem RelayedStreamingAllocation.handle_AllocationCreated (a : RelayedStreamingAllocation)
    (e : Event) : (a.handle e).state.AllocationCreated = a.AllocationCreated := by
  cases e with
  | stateChange st => cases st <;> rfl
  | connectionCreated socket peerAddr fault =>
    simp only [handle, onRelayConnectionCreated]
    split
    · rfl
    · cases fault <;> rfl
  | connectionClosed socket peerAddress fault =>
    have ht : (closedTry a socket peerAddress fault).state.AllocationCreated
        = a.AllocationCreated := by
      unfold closedTry
      split
      · rfl
      · split
        · rfl
        · split <;> rfl
    have hd : ∀ b : RelayedStreamingAllocation,
        b.dispose.state.AllocationCreated = b.AllocationCreated := by
      intro b
      unfold dispose
      split <;> rfl
    simp only [handle, onRelayConnectionClosed]
    split
    · exact ht
    · split
      · exact (hd _).trans ht
      · exact ht
  | dataReceived data peerAddr => rfl
  | permissionsCreated => rfl
  | dispose =>
    simp only [handle]
    unfold RelayedStreamingAllocation.dispose
    split <;> rfl

theorem RelayedStreamingAllocation.handle_no_responder (a : RelayedStreamingAllocation)
    (e : Event) : (a.handle e).effects.filter Effect.isResponder = [] := by
  have hd : ∀ b : RelayedStreamingAllocation,
      b.dispose.effects.filter Effect.isResponder = [] := by
    intro b
    unfold RelayedStreamingAllocation.dispose
    split
    · rfl
    · simp [StreamManager.closeAll, List.filter_append, Effect.isResponder]
  cases e with
  | stateChange st => cases st <;> rfl
  | connectionCreated socket peerAddr fault =>
    simp only [handle, onRelayConnectionCreated]
    split
    · rfl
    · cases fault with
      | none => rfl
      | some f => cases f <;> simp [createdCalls, List.takeWhile, Effect.isResponder]
  | connectionClosed socket peerAddress fault =>
    have ht : (closedTry a socket peerAddress fault).effects.filter Effect.isResponder
        = [] := by
      unfold closedTry
      split
      · rfl
      · split
        · rfl
        · split <;> rfl
    simp only [handle, onRelayConnectionClosed]
    split
    · simpa [Effect.isResponder] using ht
    · split
      · simpa [Effect.isResponder, List.filter_append, hd] using ht
      · simpa [Effect.isResponder] using ht
  | dataReceived data peerAddr => rfl
  | permissionsCreated => rfl
  | dispose => exact hd a

theorem RelayedStreamingResponder.deliver_unsubscribed (r : RelayedStreamingResponder)
    (a : RelayedStreamingAllocation) (relayed : Address) (e : Event)
    (hr : r.allocation = some a) (hs : a.AllocationCreated.slots = []) :
    r.deliver relayed e =
      { state := { r with allocation := some (a.handle e).state }
        effects := (a.handle e).effects
        aborted := (a.handle e).aborted } := by
  have hslots : (a.handle e).state.AllocationCreated.slots = [] := by
    rw [RelayedStreamingAllocation.handle_AllocationCreated, hs]
  unfold RelayedStreamingResponder.deliver
  rw [hr]
  simp only [hslots, RelayedStreamingResponder.emit]
  split <;> simp

theorem RelayedStreamingResponder.deliver_subscribed_emit (r : RelayedStreamingResponder)
    (a : RelayedStreamingAllocation) (relayed : Address) (e : Event)
    (hr : r.allocation = some a)
    (hs : a.AllocationCreated.slots = [Slot.responderOnAllocationCreated])
    (hemit : Effect.emitAllocationCreated ∈ (a.handle e).effects) :
    r.deliver relayed e =
      { state := { r with
          allocation := some { (a.handle e).state with AllocationCreated := { slots := [] } }
          connection :=
            ((r.connection.setHeader "Access-Control-Allow-Origin" "*").send
              relayed.toString).close }
        effects := (a.handle e).effects ++
          [Effect.signalDisconnect .responderOnAllocationCreated,
           Effect.clientRelayedAddress,
           Effect.log .debug "Allocation Created: ",
           Effect.responseSet "Access-Control-Allow-Origin" "*",
           Effect.connectionSend relayed.toString,
           Effect.connectionClose]
        aborted := (a.handle e).aborted } := by
  have hslots : (a.handle e).state.AllocationCreated.slots
      = [Slot.responderOnAllocationCreated] := by
    rw [RelayedStreamingAllocation.handle_AllocationCreated, hs]
  unfold RelayedStreamingResponder.deliver
  rw [hr]
  simp only [hslots, hemit, if_true, RelayedStreamingResponder.emit,
    RelayedStreamingResponder.invoke, RelayedStreamingResponder.onAllocationCreated,
    Signal.disconnect]
  simp

theorem RelayedStreamingResponder.deliver_subscribed_quiet (r : RelayedStreamingResponder)
    (a : RelayedStreamingAllocation) (relayed : Address) (e : Event)
    (hr : r.allocation = some a)
    (hemit : Effect.emitAllocationCreated ∉ (a.handle e).effects) :
    r.deliver relayed e =
      { state := { r with allocation := some (a.handle e).state }
        effects := (a.handle e).effects
        aborted := (a.handle e).aborted } := by
  unfold RelayedStreamingResponder.deliver
  rw [hr]
  simp only [hemit, if_false]

theorem RelayedStreamingResponder.run_unsubscribed (events : List (Address × Event)) :
    ∀ (r : RelayedStreamingResponder) (a : RelayedStreamingAllocation),
      r.allocation = some a → a.AllocationCreated.slots = [] →
        (r.run events).effects.filter Effect.isResponder = []
          ∧ (r.run events).state.connection = r.connection := by
  induction events with
  | nil => intro r a _ _; exact ⟨rfl, rfl⟩
  | cons x xs ih =>
    intro r a hr hs
    have hd := RelayedStreamingResponder.deliver_unsubscribed r a x.1 x.2 hr hs
    have hno := RelayedStreamingAllocation.handle_no_responder a x.2
    have hslots : (a.handle x.2).state.AllocationCreated.slots = [] := by
      rw [RelayedStreamingAllocation.handle_AllocationCreated, hs]
    simp only [RelayedStreamingResponder.run, hd]
    split
    · exact ⟨hno, rfl⟩
    · have hrest := ih { r with allocation := some (a.handle x.2).state }
        (a.handle x.2).state rfl hslots
      exact ⟨by simp [List.filter_append, hno, hrest.1], hrest.2⟩

theorem RelayedStreamingResponder.run_subscribed (events : List (Address × Event)) :
    ∀ (r : RelayedStreamingResponder) (a : RelayedStreamingAllocation),
      r.allocation = some a →
      a.AllocationCreated.slots = [Slot.responderOnAllocationCreated] →
        ((r.run events).effects.filter Effect.isResponder = []
          ∧ (r.run events).state.connection = r.connection)
        ∨ ∃ relayed : Address,
          (r.run events).effects.filter Effect.isResponder
            = [Effect.signalDisconnect .responderOnAllocationCreated,
               Effect.clientRelayedAddress,
               Effect.responseSet "Access-Control-Allow-Origin" "*",
               Effect.connectionSend relayed.toString,
               Effect.connectionClose]
          ∧ (r.run events).state.connection
            = ((r.connection.setHeader "Access-Control-Allow-Origin" "*").send
                relayed.toString).close := by
  induction events with
  | nil => intro r a _ _; exact Or.inl ⟨rfl, rfl⟩
  | cons x xs ih =>
    intro r a hr hs
    have hno := RelayedStreamingAllocation.handle_no_responder a x.2
    by_cases hemit : Effect.emitAllocationCreated ∈ (a.handle x.2).effects
    · have hd := RelayedStreamingResponder.deliver_subscribed_emit r a x.1 x.2 hr hs hemit
      refine Or.inr ⟨x.1, ?_⟩
      simp only [RelayedStreamingResponder.run, hd]
      split
      · exact ⟨by simp [List.filter_append, hno, Effect.isResponder], rfl⟩
      · have hrest := RelayedStreamingResponder.run_unsubscribed xs
          { r with
            allocation := some { (a.handle x.2).state with AllocationCreated := { slots := [] } }
            connection :=
              ((r.connection.setHeader "Access-Control-Allow-Origin" "*").send
                x.1.toString).close }
          { (a.handle x.2).state with AllocationCreated := { slots := [] } } rfl rfl
        exact ⟨by simp [List.filter_append, hno, hrest.1, Effect.isResponder], hrest.2⟩
    · have hd := RelayedStreamingResponder.deliver_subscribed_quiet r a x.1 x.2 hr hemit
      have hslots : (a.handle x.2).state.AllocationCreated.slots
          = [Slot.responderOnAllocationCreated] := by
        rw [RelayedStreamingAllocation.handle_AllocationCreated, hs]
      simp only [RelayedStreamingResponder.run, hd]
      split
      · exact Or.inl ⟨hno, rfl⟩
      · have hrest := ih { r with allocation := some (a.handle x.2).state }
          (a.handle x.2).state rfl hslots
        rcases hrest with ⟨h1, h2⟩ | ⟨relayed, h1, h2⟩
        · exact Or.inl ⟨by simp [List.filter_append, hno, h1], h2⟩
        · exact Or.inr ⟨relayed, by simp [List.filter_append, hno, h1], h2⟩

theorem RelayedStreamingResponder.session_reply (c : ServerConnection)
    (options : StreamingOptions) (kRelayServerIP : String)
    (fault : Option RelayedStreamingAllocation.InitiateFault)
    (events : List (Address × Event)) :
    (((RelayedStreamingResponder.new c options).session kRelayServerIP fault
          events).effects.filter Effect.isResponder = []
        ∧ ((RelayedStreamingResponder.new c options).session kRelayServerIP fault
          events).state.connection = c)
      ∨ ∃ relayed : Address,
        ((RelayedStreamingResponder.new c options).session kRelayServerIP fault
            events).effects.filter Effect.isResponder
          = [Effect.signalDisconnect .responderOnAllocationCreated,
             Effect.clientRelayedAddress,
             Effect.responseSet "Access-Control-Allow-Origin" "*",
             Effect.connectionSend relayed.toString,
             Effect.connectionClose]
        ∧ ((RelayedStreamingResponder.new c options).session kRelayServerIP fault
            events).state.connection
          = ((c.setHeader "Access-Control-Allow-Origin" "*").send relayed.toString).close := by
  cases fault with
  | some f =>
    left
    cases f <;>
      simp [RelayedStreamingResponder.session, RelayedStreamingResponder.onRequest,
        RelayedStreamingResponder.new, RelayedStreamingAllocation.initiate,
        RelayedStreamingAllocation.initiateCalls, List.takeWhile, Effect.isResponder]
  | none =>
    have hrun := RelayedStreamingResponder.run_subscribed events
      ((RelayedStreamingResponder.new c options).onRequest kRelayServerIP none).state
      { RelayedStreamingAllocation.new options
          { serverAddr := { host := kRelayServerIP, port := 3478 }
            lifetime := 120 * 1000
            timeout := 10 * 1000
            timerInterval := 3 * 1000
            username := RELAY_USERNAME
            password := RELAY_PASSWORD } c.peerHost with
        AllocationCreated := { slots := [Slot.responderOnAllocationCreated] } }
      rfl rfl
    have hq : ((RelayedStreamingResponder.new c options).onRequest kRelayServerIP
        none).effects.filter Effect.isResponder = [] := rfl
    have hc : ((RelayedStreamingResponder.new c options).onRequest kRelayServerIP
        none).state.connection = c := rfl
    have hab : ((RelayedStreamingResponder.new c options).onRequest kRelayServerIP
        none).aborted = false := rfl
    rw [hc] at hrun
    simp only [RelayedStreamingResponder.session, hab]
    rcases hrun with ⟨h1, h2⟩ | ⟨relayed, h1, h2⟩
    · exact Or.inl ⟨by simp [List.filter_append, hq, h1], h2⟩
    · exact Or.inr ⟨relayed, by simp [List.filter_append, hq, h1], h2⟩

theorem RelayedStreamingResponder.run_append (xs ys : List (Address × Event)) :
    ∀ r : RelayedStreamingResponder, (r.run xs).aborted = false →
      r.run (xs ++ ys) =
        { state := ((r.run xs).state.run ys).state
          effects := (r.run xs).effects ++ ((r.run xs).state.run ys).effects
          aborted := ((r.run xs).state.run ys).aborted } := by
  induction xs with
  | nil => intro r _; simp [RelayedStreamingResponder.run]
  | cons x xs ih =>
    intro r hrun
    have hcons : ∀ zs : List (Address × Event), r.run (x :: zs) =
        if (r.deliver x.1 x.2).aborted then r.deliver x.1 x.2
        else
          { state := ((r.deliver x.1 x.2).state.run zs).state
            effects := (r.deliver x.1 x.2).effects ++ ((r.deliver x.1 x.2).state.run zs).effects
            aborted := ((r.deliver x.1 x.2).state.run zs).aborted } := fun _ => rfl
    by_cases hab : (r.deliver x.1 x.2).aborted = true
    · rw [hcons, if_pos hab, hab] at hrun
      exact absurd hrun (by decide)
    · rw [hcons, if_neg hab] at hrun
      rw [List.cons_append, hcons, hcons, if_neg hab, if_neg hab, ih _ hrun]
      simp [List.append_assoc]

theorem RelayedStreamingResponder.run_handshake (pre : List (Address × ClientStateId))
    (hpre : ∀ x ∈ pre, x.2 ≠ ClientStateId.Success) (r : RelayedStreamingResponder)
    (a : RelayedStreamingAllocation) (hr : r.allocation = some a) :
    (r.run (pre.map (fun x => (x.1, Event.stateChange x.2)))).state = r
      ∧ (r.run (pre.map (fun x => (x.1, Event.stateChange x.2)))).effects.filter
          Effect.isCollab = []
      ∧ (r.run (pre.map (fun x => (x.1, Event.stateChange x.2)))).aborted = false := by
  induction pre with
  | nil => exact ⟨rfl, rfl, rfl⟩
  | cons x xs ih =>
    have hx : x.2 ≠ ClientStateId.Success := hpre x (List.mem_cons_self _ _)
    have hxs : ∀ y ∈ xs, y.2 ≠ ClientStateId.Success :=
      fun y hy => hpre y (List.mem_cons_of_mem _ hy)
    obtain ⟨h1, h2, h3⟩ := ih hxs
    have hstep : r.deliver x.1 (Event.stateChange x.2) =
        { state := r
          effects := (a.onClientStateChange x.2).effects
          aborted := false } := by
      unfold RelayedStreamingResponder.deliver
      rw [hr]
      cases hst : x.2 with
      | Success => exact absurd hst hx
      | None =>
        cases r
        simp_all [handle, onClientStateChange]
      | Allocating =>
        cases r
        simp_all [handle, onClientStateChange]
      | Authorizing =>
        cases r
        simp_all [handle, onClientStateChange]
      | Failed =>
        cases r
        simp_all [handle, onClientStateChange]
    have hfx : (a.onClientStateChange x.2).effects.filter Effect.isCollab = [] := by
      cases hst : x.2 with
      | Success => exact absurd hst hx
      | None => rfl
      | Allocating => rfl
      | Authorizing => rfl
      | Failed => rfl
    simp only [List.map_cons, RelayedStreamingResponder.run, hstep]
    exact ⟨h1, by simp [List.filter_append, hfx, h2], h3⟩

/-! ## C9 -/

/-- C9: for every peer host P, relay server constant, streaming options and
relayed address R: onRequest on a fresh connection from P creates one
allocation, bound to P, whose relay client has lifetime 120000, timeout 10000
and timer interval 3000, subscribes to its AllocationCreated and initiates
it; and when, after any relay states other than Success, the relay client
reaches Success with relayed address R, the responder sets
`Access-Control-Allow-Origin: *`, sends the text form of R as the only
payload, and closes the connection, in this order. -/
theorem C9_request_to_reply (options : StreamingOptions) (kRelayServerIP P : String)
    (R : Address) (pre : List (Address × ClientStateId))
    (hpre : ∀ x ∈ pre, x.2 ≠ ClientStateId.Success) :
    ((RelayedStreamingResponder.new (ServerConnection.accept P) options).onRequest
        kRelayServerIP none).state.allocation
        = some { RelayedStreamingAllocation.new options
                  { serverAddr := { host := kRelayServerIP, port := 3478 }
                    lifetime := 120000
                    timeout := 10000
                    timerInterval := 3000
                    username := "user"
                    password := "illusion" } P with
                 AllocationCreated := { slots := [Slot.responderOnAllocationCreated] } }
      ∧ ((RelayedStreamingResponder.new (ServerConnection.accept P) options).session
          kRelayServerIP none
          (pre.map (fun x => (x.1, Event.stateChange x.2))
            ++ [(R, Event.stateChange .Success)])).aborted = false
      ∧ ((RelayedStreamingResponder.new (ServerConnection.accept P) options).session
          kRelayServerIP none
          (pre.map (fun x => (x.1, Event.stateChange x.2))
            ++ [(R, Event.stateChange .Success)])).state.connection
        = { peerHost := P
            responseHeaders := [("Access-Control-Allow-Origin", "*")]
            sent := [R.toString]
            closed := true }
      ∧ ((RelayedStreamingResponder.new (ServerConnection.accept P) options).session
          kRelayServerIP none
          (pre.map (fun x => (x.1, Event.stateChange x.2))
            ++ [(R, Event.stateChange .Success)])).effects.filter Effect.isCollab
        = [Effect.newAllocation P
             { serverAddr := { host := kRelayServerIP, port := 3478 }
               lifetime := 120000
               timeout := 10000
               timerInterval := 3000
               username := "user"
               password := "illusion" },
           Effect.signalConnect .responderOnAllocationCreated,
           Effect.clientAddPermission P,
           Effect.clientAddPermission "127.0.0.1",
           Effect.clientAddPermission "192.168.1.1",
           Effect.clientInitiate,
           Effect.emitAllocationCreated,
           Effect.signalDisconnect .responderOnAllocationCreated,
           Effect.clientRelayedAddress,
           Effect.responseSet "Access-Control-Allow-Origin" "*",
           Effect.connectionSend R.toString,
           Effect.connectionClose] := by
  have hq : (RelayedStreamingResponder.new (ServerConnection.accept P) options).onRequest
        kRelayServerIP none =
      { state :=
          { connection := ServerConnection.accept P
            options := options
            allocation := some { RelayedStreamingAllocation.new options
                  { serverAddr := { host := kRelayServerIP, port := 3478 }
                    lifetime := 120000
                    timeout := 10000
                    timerInterval := 3000
                    username := "user"
                    password := "illusion" } P with
                 AllocationCreated := { slots := [Slot.responderOnAllocationCreated] } } }
        effects := [Effect.log .debug "Running: ",
          Effect.newAllocation P
             { serverAddr := { host := kRelayServerIP, port := 3478 }
               lifetime := 120000
               timeout := 10000
               timerInterval := 3000
               username := "user"
               password := "illusion" },
          Effect.signalConnect .responderOnAllocationCreated,
          Effect.log .debug "Initiating",
          Effect.clientAddPermission P,
          Effect.clientAddPermission "127.0.0.1",
          Effect.clientAddPermission "192.168.1.1",
          Effect.clientInitiate]
        aborted := false } := by
    simp [RelayedStreamingResponder.onRequest, RelayedStreamingResponder.new,
      RelayedStreamingAllocation.new, RelayedStreamingAllocation.initiate,
      RelayedStreamingAllocation.initiateCalls, ServerConnection.accept, Signal.connect,
      RELAY_USERNAME, RELAY_PASSWORD]
  obtain ⟨h1, h2, h3⟩ := RelayedStreamingResponder.run_handshake pre hpre
    ((RelayedStreamingResponder.new (ServerConnection.accept P) options).onRequest
        kRelayServerIP none).state _ (by rw [hq])
  have happ := RelayedStreamingResponder.run_append
    (pre.map (fun x => (x.1, Event.stateChange x.2))) [(R, Event.stateChange .Success)]
    ((RelayedStreamingResponder.new (ServerConnection.accept P) options).onRequest
        kRelayServerIP none).state h3
  rw [h1] at happ
  have hlast : ((RelayedStreamingResponder.new (ServerConnection.accept P) options).onRequest
        kRelayServerIP none).state.run [(R, Event.stateChange .Success)] =
      { state :=
          { connection :=
              { peerHost := P
                responseHeaders := [("Access-Control-Allow-Origin", "*")]
                sent := [R.toString]
                closed := true }
            options := options
            allocation := some (RelayedStreamingAllocation.new options
                  { serverAddr := { host := kRelayServerIP, port := 3478 }
                    lifetime := 120000
                    timeout := 10000
                    timerInterval := 3000
                    username := "user"
                    password := "illusion" } P) }
        effects := [Effect.log .debug "Relay state changed: ",
          Effect.emitAllocationCreated,
          Effect.signalDisconnect .responderOnAllocationCreated,
          Effect.clientRelayedAddress,
          Effect.log .debug "Allocation Created: ",
          Effect.responseSet "Access-Control-Allow-Origin" "*",
          Effect.connectionSend R.toString,
          Effect.connectionClose]
        aborted := false } := by
    rw [hq]
    simp [RelayedStreamingResponder.run, RelayedStreamingResponder.deliver,
      RelayedStreamingResponder.emit, RelayedStreamingResponder.invoke,
      RelayedStreamingResponder.onAllocationCreated, handle, onClientStateChange,
      Signal.disconnect, ServerConnection.accept, ServerConnection.setHeader,
      ServerConnection.send, ServerConnection.close, RelayedStreamingAllocation.new]
  rw [hlast] at happ
  have hab : ((RelayedStreamingResponder.new (ServerConnection.accept P) options).onRequest
        kRelayServerIP none).aborted = false := by rw [hq]
  simp only [RelayedStreamingResponder.session, hab, happ]
  refine ⟨by rw [hq], rfl, rfl, ?_⟩
  simp only [Bool.false_eq_true, if_false, List.filter_append, h2]
  rw [hq]
  rfl

/-- C9 at the input of the specification: peer 198.51.100.7, relay states
Allocating and Authorizing, then Success with relayed address
203.0.113.9:49200; the payload sent is the text "203.0.113.9:49200". -/
theorem C9_request_to_reply_witness :
    (∀ x ∈ [(({ host := "0.0.0.0", port := 0 } : Address), ClientStateId.Allocating),
            ({ host := "0.0.0.0", port := 0 }, ClientStateId.Authorizing)],
        x.2 ≠ ClientStateId.Success)
      ∧ ((RelayedStreamingResponder.new (ServerConnection.accept "198.51.100.7")
            sampleOptions).session "192.0.2.1" none
          ([(({ host := "0.0.0.0", port := 0 } : Address), ClientStateId.Allocating),
            ({ host := "0.0.0.0", port := 0 }, ClientStateId.Authorizing)].map
              (fun x => (x.1, Event.stateChange x.2))
            ++ [({ host := "203.0.113.9", port := 49200 },
                 Event.stateChange .Success)])).state.connection
        = { peerHost := "198.51.100.7"
            responseHeaders := [("Access-Control-Allow-Origin", "*")]
            sent := ["203.0.113.9:49200"]
            closed := true } :=
  ⟨by decide,
   (C9_request_to_reply sampleOptions "192.0.2.1" "198.51.100.7"
      { host := "203.0.113.9", port := 49200 }
      [(({ host := "0.0.0.0", port := 0 } : Address), ClientStateId.Allocating),
       ({ host := "0.0.0.0", port := 0 }, ClientStateId.Authorizing)]
      (by decide)).2.2.1⟩

/-! ## C10 -/

/-- C10: for every responder on any connection, every outcome of initiate()
and every sequence of relay events after onRequest (repeated Success
deliveries included), the body of onAllocationCreated runs at most once: the
trace holds at most one unsubscribe, one read of the relayed address, one
send and one close, and at most one payload is added to the connection.  The
handler unsubscribes first, so a later emission finds no slot. -/
theorem C10_reply_at_most_once (c : ServerConnection) (options : StreamingOptions)
    (kRelayServerIP : String) (fault : Option RelayedStreamingAllocation.InitiateFault)
    (events : List (Address × Event)) :
    ((RelayedStreamingResponder.new c options).session kRelayServerIP fault
        events).effects.count (Effect.signalDisconnect .responderOnAllocationCreated) ≤ 1
      ∧ ((RelayedStreamingResponder.new c options).session kRelayServerIP fault
        events).effects.count Effect.clientRelayedAddress ≤ 1
      ∧ ((RelayedStreamingResponder.new c options).session kRelayServerIP fault
        events).effects.countP Effect.isSend ≤ 1
      ∧ ((RelayedStreamingResponder.new c options).session kRelayServerIP fault
        events).effects.count Effect.connectionClose ≤ 1
      ∧ ((RelayedStreamingResponder.new c options).session kRelayServerIP fault
        events).state.connection.sent.length ≤ c.sent.length + 1 := by
  have hcount : ∀ (x : Effect) (fx : List Effect), Effect.isResponder x = true →
      fx.count x = (fx.filter Effect.isResponder).count x := by
    intro x fx hx
    exact (List.count_filter hx).symm
  have hsend : ∀ fx : List Effect,
      fx.countP Effect.isSend = (fx.filter Effect.isResponder).countP Effect.isSend := by
    intro fx
    rw [List.countP_filter]
    congr 1
    funext e
    cases e <;> rfl
  rw [hcount (Effect.signalDisconnect .responderOnAllocationCreated) _ rfl,
    hcount Effect.clientRelayedAddress _ rfl,
    hcount Effect.connectionClose _ rfl, hsend]
  rcases RelayedStreamingResponder.session_reply c options kRelayServerIP fault events with
    ⟨h1, h2⟩ | ⟨relayed, h1, h2⟩
  · rw [h1, h2]
    simp
  · rw [h1, h2]
    simp [List.count_cons, Effect.isSend, ServerConnection.setHeader, ServerConnection.send,
      ServerConnection.close]

/-! ## C11 -/

/-- C11: for every allocation, and so for the one constructed for peer address
P, initiate() with no collaborator failing registers exactly three
permissions with the relay client, for P, 127.0.0.1 and 192.168.1.1 in this
order, and after the three registrations starts the handshake, once; it
reaches no `assert(0)` and leaves the allocation unchanged. -/
theorem C11_initiate_permissions (options : StreamingOptions) (clientOptions : ClientOptions)
    (P : String) (a : RelayedStreamingAllocation) :
    (a.initiate none).effects
        = [Effect.log .debug "Initiating",
           Effect.clientAddPermission a.peerIP,
           Effect.clientAddPermission "127.0.0.1",
           Effect.clientAddPermission "192.168.1.1",
           Effect.clientInitiate]
      ∧ (a.initiate none).effects.count Effect.clientInitiate = 1
      ∧ (a.initiate none).state = a
      ∧ (a.initiate none).aborted = false
      ∧ ((RelayedStreamingAllocation.new options clientOptions P).initiate
          none).effects.filter Effect.isCollab
        = [Effect.clientAddPermission P,
           Effect.clientAddPermission "127.0.0.1",
           Effect.clientAddPermission "192.168.1.1",
           Effect.clientInitiate] := by
  refine ⟨rfl, ?_, rfl, rfl, rfl⟩
  simp [initiate, initiateCalls, List.count_cons]

/-! ## C12 -/

/-- C12, the claim at a concrete input: when the first permission registration
throws, initiate() reaches `assert(0)`: the abort branch is taken, and the
trace ends with the error log line and the failed assertion. -/
theorem C12_initiate_failure_aborts :
    (sampleAllocation.initiate (some .permissionPeer)).aborted = true
      ∧ (sampleAllocation.initiate (some .permissionPeer)).effects
        = [Effect.log .debug "Initiating", Effect.log .error "Error: ", Effect.assertFail]
      ∧ (sampleAllocation.initiate (some .clientInitiate)).aborted = true
      ∧ Effect.assertFail ∈ (sampleAllocation.initiate (some .clientInitiate)).effects := by
  decide

/-- C12 as amended: whichever collaborator call of initiate() throws, the
exception is caught inside initiate(), logged as an error, and `assert(0)` is
reached: the calls after the failing one are skipped, the handshake is not
started, the allocation is unchanged, and the trace ends with the error line
and the failed assertion.  The responder that made the request then answers
nothing: its connection is as it was and no relay event is handled. -/
theorem C12_initiate_failure (a : RelayedStreamingAllocation) (f : InitiateFault)
    (c : ServerConnection) (options : StreamingOptions) (kRelayServerIP : String)
    (events : List (Address × Event)) :
    (a.initiate (some f)).aborted = true
      ∧ (a.initiate (some f)).state = a
      ∧ (a.initiate (some f)).effects
        = Effect.log .debug "Initiating" ::
          ((((initiateCalls a).takeWhile (fun x => x.1 ≠ f)).map Prod.snd)
            ++ [Effect.log .error "Error: ", Effect.assertFail])
      ∧ Effect.assertFail ∈ (a.initiate (some f)).effects
      ∧ Effect.clientInitiate ∉ (a.initiate (some f)).effects
      ∧ ((RelayedStreamingResponder.new c options).session kRelayServerIP (some f)
          events).aborted = true
      ∧ ((RelayedStreamingResponder.new c options).session kRelayServerIP (some f)
          events).state.connection = c
      ∧ ((RelayedStreamingResponder.new c options).session kRelayServerIP (some f)
          events).effects.filter Effect.isResponder = [] := by
  refine ⟨rfl, rfl, rfl, ?_, ?_, ?_, ?_, ?_⟩
  · cases f <;> simp [initiate, initiateCalls, List.takeWhile]
  · cases f <;> simp [initiate, initiateCalls, List.takeWhile]
  · cases f <;> rfl
  · cases f <;> rfl
  · cases f <;>
      simp [RelayedStreamingResponder.session, RelayedStreamingResponder.onRequest,
        RelayedStreamingResponder.new, RelayedStreamingAllocation.initiate,
        RelayedStreamingAllocation.initiateCalls, List.takeWhile, Effect.isResponder]

/-! ## C13 -/

/-- C13: for every allocation state, a delivery of Failed, None, Allocating or
Authorizing is logged only: the result is the unchanged state (so neither
`deleted` nor the registry changes) with log lines as its only effects (no
emission, no shutdown, no disposal); and a responder holding the allocation
is left as it was, none of its calls being made. -/
theorem C13_failed_logged_only (a : RelayedStreamingAllocation)
    (r : RelayedStreamingResponder) (relayed : Address) :
    a.onClientStateChange .Failed
        = { state := a
            effects := [Effect.log .debug "Relay state changed: ",
              Effect.log .warn "Relay connection lost"]
            aborted := false }
      ∧ a.onClientStateChange .None
        = { state := a, effects := [Effect.log .debug "Relay state changed: "],
            aborted := false }
      ∧ a.onClientStateChange .Allocating
        = { state := a, effects := [Effect.log .debug "Relay state changed: "],
            aborted := false }
      ∧ a.onClientStateChange .Authorizing
        = { state := a, effects := [Effect.log .debug "Relay state changed: "],
            aborted := false }
      ∧ (∀ st : ClientStateId, st ≠ .Success →
          (a.handle (.stateChange st)).state = a
          ∧ (a.handle (.stateChange st)).effects.all Effect.isLog = true
          ∧ (a.handle (.stateChange st)).effects.filter Effect.isCollab = []
          ∧ (a.handle (.stateChange st)).effects.filter Effect.isTeardown = []
          ∧ (({ r with allocation := some a }).deliver relayed (.stateChange st)).state
              = { r with allocation := some a }
          ∧ (({ r with allocation := some a }).deliver relayed (.stateChange st)).effects
              = (a.handle (.stateChange st)).effects) := by
  refine ⟨rfl, rfl, rfl, rfl, ?_⟩
  intro st hst
  cases st with
  | Success => exact absurd rfl hst
  | None => exact ⟨rfl, rfl, rfl, rfl, rfl, rfl⟩
  | Allocating => exact ⟨rfl, rfl, rfl, rfl, rfl, rfl⟩
  | Authorizing => exact ⟨rfl, rfl, rfl, rfl, rfl, rfl⟩
  | Failed => exact ⟨rfl, rfl, rfl, rfl, rfl, rfl⟩

/-- C13 at a concrete input: Failed delivered to the sample allocation while
it holds the stream of `peerA`. -/
theorem C13_failed_logged_only_witness :
    ClientStateId.Failed ≠ ClientStateId.Success
      ∧ ((sampleAllocation.handle (.connectionCreated 7 peerA none)).state.handle
          (.stateChange .Failed)).state
        = (sampleAllocation.handle (.connectionCreated 7 peerA none)).state
      ∧ ((sampleAllocation.handle (.connectionCreated 7 peerA none)).state.handle
          (.stateChange .Failed)).effects.filter Effect.isCollab = [] :=
  ⟨by decide,
   ((C13_failed_logged_only (sampleAllocation.handle (.connectionCreated 7 peerA none)).state
      (RelayedStreamingResponder.new (ServerConnection.accept "198.51.100.7") sampleOptions)
      peerB).2.2.2.2 .Failed (by decide)).1,
   ((C13_failed_logged_only (sampleAllocation.handle (.connectionCreated 7 peerA none)).state
      (RelayedStreamingResponder.new (ServerConnection.accept "198.51.100.7") sampleOptions)
      peerB).2.2.2.2 .Failed (by decide)).2.2.1⟩

/-! ## C14 -/

/-- C14: for every peer address A and send handle, connection-created on an
allocation whose registry is empty, no collaborator failing, performs in this
order: the ConnectionCreated notification with A, the construction of a
stream named by the text form of A, its setup from the streaming options of
the allocation, the binding of its emitter to the send handle, its start, its
insertion into the registry; afterwards the registry holds exactly one entry,
that stream, keyed by the text form of A, and nothing else has changed. -/
theorem C14_connection_admitted (a : RelayedStreamingAllocation) (socket : Socket)
    (A : Address) (h : a.streams.entries = []) :
    (a.onRelayConnectionCreated socket A none).effects
        = [Effect.log .debug "Connection created: ",
           Effect.emitConnectionCreated A,
           Effect.newPacketStream A.toString,
           Effect.setupPacketStream A.toString a.options true true,
           Effect.emitterAttach A.toString socket,
           Effect.streamStart A.toString,
           Effect.streamsAddStream A.toString]
      ∧ (a.onRelayConnectionCreated socket A none).state.streams.entries
        = [{ name := A.toString, options := some a.options, sinks := [socket],
             started := true }]
      ∧ (a.onRelayConnectionCreated socket A none).state.streams.size = 1
      ∧ (a.onRelayConnectionCreated socket A none).state
        = { a with streams := { entries :=
              [{ name := A.toString, options := some a.options, sinks := [socket],
                 started := true }] } }
      ∧ (a.onRelayConnectionCreated socket A none).aborted = false := by
  have hr : a.onRelayConnectionCreated socket A none =
      { state := { a with streams := { entries :=
              [{ name := A.toString, options := some a.options, sinks := [socket],
                 started := true }] } }
        effects := [Effect.log .debug "Connection created: ",
           Effect.emitConnectionCreated A,
           Effect.newPacketStream A.toString,
           Effect.setupPacketStream A.toString a.options true true,
           Effect.emitterAttach A.toString socket,
           Effect.streamStart A.toString,
           Effect.streamsAddStream A.toString]
        aborted := false } := by
    simp [onRelayConnectionCreated, StreamManager.size, StreamManager.addStream, createdStream,
      createdCalls, h]
  rw [hr]
  exact ⟨rfl, rfl, rfl, rfl, rfl⟩

/-- C14 at a concrete input: `peerA` on send handle 7 reaches the fresh sample
allocation. -/
theorem C14_connection_admitted_witness :
    sampleAllocation.streams.entries = []
      ∧ (sampleAllocation.onRelayConnectionCreated 7 peerA none).state.streams.entries
        = [{ name := "198.51.100.7:5000", options := some sampleOptions, sinks := [7],
             started := true }] :=
  ⟨by decide, (C14_connection_admitted sampleAllocation 7 peerA (by decide)).2.1⟩

/-! ## Lemmas on the teardown -/

theorem RelayedStreamingAllocation.dispose_teardown_once (a : RelayedStreamingAllocation)
    (x : Effect) (hx : x = Effect.clientShutdown ∨ x = Effect.deleteLater) :
    a.dispose.effects.count x + (if a.dispose.state.deleted = true then 0 else 1)
      = if a.deleted = true then 0 else 1 := by
  cases hdel : a.deleted with
  | true =>
    rw [dispose_of_deleted a hdel]
    rcases hx with rfl | rfl <;> simp [hdel, List.count_cons]
  | false =>
    rw [dispose_of_live a hdel]
    rcases hx with rfl | rfl <;> simp [List.count_cons, count_streamClose_map]

theorem RelayedStreamingAllocation.closedTry_count_teardown (a : RelayedStreamingAllocation)
    (socket : Socket) (peerAddress : Address) (fault : Option ClosedFault) (x : Effect)
    (hx : x = Effect.clientShutdown ∨ x = Effect.deleteLater) :
    (closedTry a socket peerAddress fault).effects.count x = 0 := by
  unfold closedTry
  split
  · rcases hx with rfl | rfl <;> simp [List.count_cons]
  · split
    · rcases hx with rfl | rfl <;> simp [List.count_cons]
    · split <;> rcases hx with rfl | rfl <;> simp [List.count_cons]

theorem RelayedStreamingAllocation.handle_teardown_once (a : RelayedStreamingAllocation)
    (e : Event) (x : Effect) (hx : x = Effect.clientShutdown ∨ x = Effect.deleteLater) :
    (a.handle e).effects.count x + (if (a.handle e).state.deleted = true then 0 else 1)
      = if a.deleted = true then 0 else 1 := by
  cases e with
  | stateChange st =>
    cases st <;> rcases hx with rfl | rfl <;>
      simp [handle, onClientStateChange, List.count_cons]
  | connectionCreated socket peerAddr fault =>
    simp only [handle, onRelayConnectionCreated]
    split
    · rcases hx with rfl | rfl <;> simp [List.count_cons]
    · cases fault with
      | none => rcases hx with rfl | rfl <;> simp [createdCalls, List.count_cons]
      | some f =>
        cases f <;> rcases hx with rfl | rfl <;>
          simp [createdCalls, List.takeWhile, List.count_cons]
  | connectionClosed socket peerAddress fault =>
    have hc := closedTry_count_teardown a socket peerAddress fault x hx
    have hd := closedTry_deleted a socket peerAddress fault
    have hdis := dispose_teardown_once (closedTry a socket peerAddress fault).state x hx
    have hlog : (Effect.log LogLevel.debug "Connection closed: " == x) = false := by
      rcases hx with rfl | rfl <;> rfl
    simp only [handle, onRelayConnectionClosed]
    split
    · simp only [List.count_cons, hc, hlog, hd]
      simp
    · split
      · simp only [List.count_cons, List.count_append, hc, hlog]
        rw [hd] at hdis
        simpa using hdis
      · simp only [List.count_cons, hc, hlog, hd]
        simp
  | dataReceived data peerAddr =>
    rcases hx with rfl | rfl <;> simp [handle, onRelayDataReceived, List.count_cons]
  | permissionsCreated =>
    rcases hx with rfl | rfl <;>
      simp [handle, onAllocationPermissionsCreated, List.count_cons]
  | dispose => exact dispose_teardown_once a x hx

theorem RelayedStreamingAllocation.run_teardown_once (events : List Event) (x : Effect)
    (hx : x = Effect.clientShutdown ∨ x = Effect.deleteLater) :
    ∀ a : RelayedStreamingAllocation,
      (a.run events).effects.count x + (if (a.run events).state.deleted = true then 0 else 1)
        = if a.deleted = true then 0 else 1 := by
  induction events with
  | nil => intro a; simp [run]
  | cons e es ih =>
    intro a
    have hstep := handle_teardown_once a e x hx
    have hrest := ih (a.handle e).state
    simp only [run]
    split
    · exact hstep
    · simp only [List.count_append]
      omega

theorem RelayedStreamingAllocation.run_deleted_stays (xs ys : List Event) :
    ∀ a : RelayedStreamingAllocation, (a.run xs).state.deleted = true →
      (a.run (xs ++ ys)).state.deleted = true := by
  induction xs with
  | nil =>
    intro a ha
    have hrun := run_teardown_once ys Effect.clientShutdown (Or.inl rfl) a
    have ha2 : a.deleted = true := ha
    rw [if_pos ha2] at hrun
    rw [List.nil_append]
    by_contra hne
    rw [if_neg hne] at hrun
    omega
  | cons e es ih =>
    intro a ha
    simp only [run, List.cons_append] at ha ⊢
    split
    · rename_i hab
      rw [if_pos hab] at ha
      exact ha
    · rename_i hab
      rw [if_neg hab] at ha
      exact ih _ ha

/-! ## C15 -/

/-- C15: for every finite sequence of events and dispose() calls, in any
interleaving and from any state (events after disposal and connection-closed
events that reach dispose() included), the trace holds at most one
relay-client shutdown and at most one scheduling of the deferred destruction;
and once `deleted` is true after some part of the sequence, it is true after
every longer part: nothing sets it back to false. -/
theorem C15_teardown_at_most_once (a : RelayedStreamingAllocation)
    (events more : List Event) :
    (a.run events).effects.count Effect.clientShutdown ≤ 1
      ∧ (a.run events).effects.count Effect.deleteLater ≤ 1
      ∧ ((a.run events).state.deleted = true →
          (a.run (events ++ more)).state.deleted = true)
      ∧ (a.deleted = true →
          (a.run events).effects.count Effect.clientShutdown = 0
          ∧ (a.run events).effects.count Effect.deleteLater = 0
          ∧ (a.run events).state.deleted = true) := by
  have h1 := run_teardown_once events Effect.clientShutdown (Or.inl rfl) a
  have h2 := run_teardown_once events Effect.deleteLater (Or.inr rfl) a
  refine ⟨?_, ?_, run_deleted_stays events more a, ?_⟩
  · split at h1 <;> split at h1 <;> omega
  · split at h2 <;> split at h2 <;> omega
  · intro hdel
    rw [if_pos hdel] at h1 h2
    refine ⟨by omega, by omega, ?_⟩
    by_contra hne
    rw [if_neg hne] at h1
    omega

/-- C15 at a concrete input: a connection is admitted and closed, which
disposes the allocation; then a second connection, a close and two dispose()
calls follow. -/
theorem C15_teardown_at_most_once_witness :
    (sampleAllocation.run
        [.stateChange .Success, .connectionCreated 7 peerA none,
         .connectionClosed 7 peerA none]).state.deleted = true
      ∧ (sampleAllocation.run
        ([.stateChange .Success, .connectionCreated 7 peerA none,
          .connectionClosed 7 peerA none]
          ++ [.connectionCreated 8 peerB none, .connectionClosed 8 peerB none,
              .dispose, .dispose])).state.deleted = true :=
  ⟨by decide,
   (C15_teardown_at_most_once sampleAllocation
      [.stateChange .Success, .connectionCreated 7 peerA none, .connectionClosed 7 peerA none]
      [.connectionCreated 8 peerB none, .connectionClosed 8 peerB none, .dispose,
       .dispose]).2.2.1 (by decide)⟩

/-! ## C16 -/

theorem RelayedStreamingAllocation.dispose_schedules (b : RelayedStreamingAllocation)
    (h : Effect.deleteLater ∈ b.dispose.effects) :
    b.deleted = false ∧ b.dispose.state.streams.entries = []
      ∧ b.dispose.state.deleted = true := by
  cases hdel : b.deleted with
  | true =>
    rw [dispose_of_deleted b hdel] at h
    simp at h
  | false =>
    rw [dispose_of_live b hdel]
    exact ⟨rfl, rfl, rfl⟩

theorem RelayedStreamingAllocation.handle_schedules (a : RelayedStreamingAllocation)
    (e : Event) (h : Effect.deleteLater ∈ (a.handle e).effects) :
    (e = Event.dispose
        ∨ ∃ socket peerAddress fault, e = Event.connectionClosed socket peerAddress fault)
      ∧ ∃ (b : RelayedStreamingAllocation) (pre : List Effect),
          b.deleted = false
          ∧ (a.handle e).effects = pre ++ b.dispose.effects
          ∧ (a.handle e).state = b.dispose.state
          ∧ Effect.deleteLater ∉ pre := by
  cases e with
  | stateChange st =>
    exfalso
    cases st <;> simp [handle, onClientStateChange] at h
  | connectionCreated socket peerAddr fault =>
    exfalso
    have hno := created_no_teardown a socket peerAddr fault
    have hmem : Effect.deleteLater ∈
        (a.onRelayConnectionCreated socket peerAddr fault).effects.filter Effect.isTeardown :=
      List.mem_filter.mpr ⟨h, rfl⟩
    rw [hno] at hmem
    simp at hmem
  | connectionClosed socket peerAddress fault =>
    refine ⟨Or.inr ⟨socket, peerAddress, fault, rfl⟩, ?_⟩
    have hc := closedTry_count_teardown a socket peerAddress fault Effect.deleteLater
      (Or.inr rfl)
    rw [List.count_eq_zero] at hc
    simp only [handle, onRelayConnectionClosed] at h ⊢
    split at h
    · exfalso
      simp at h
      exact hc h
    · split at h
      · rename_i hab hempty
        rw [if_neg hab, if_pos hempty]
        have hd : Effect.deleteLater ∈ (closedTry a socket peerAddress fault).state.dispose.effects := by
          simp at h
          rcases h with h | h
          · exact absurd h hc
          · exact h
        refine ⟨(closedTry a socket peerAddress fault).state,
          Effect.log .debug "Connection closed: " :: (closedTry a socket peerAddress fault).effects,
          (dispose_schedules _ hd).1, by simp, rfl, ?_⟩
        simp
        exact hc
      · exfalso
        simp at h
        exact hc h
  | dataReceived data peerAddr =>
    exfalso
    simp [handle, onRelayDataReceived] at h
  | permissionsCreated =>
    exfalso
    simp [handle, onAllocationPermissionsCreated] at h
  | dispose =>
    refine ⟨Or.inl rfl, a, [], (dispose_schedules a h).1, by simp [handle], rfl, by simp⟩

/-- C16: whenever an event, after any event sequence from any state, schedules
the deferred destruction, the state it leaves (the state in which the
destruction runs when nothing is delivered in between) has an empty registry
and `deleted` true, so both assertions of the destructor hold; and the
scheduling is the work of dispose(): the event is a dispose() call or a
connection-closed event, its effects end with the effects of a dispose() call
made on a state that was not yet disposed, nothing before that call schedules
anything, and initiate() never schedules a destruction. -/
theorem C16_destructor_assertions (a : RelayedStreamingAllocation) (events : List Event)
    (e : Event) (f : Option InitiateFault)
    (h : Effect.deleteLater ∈ ((a.run events).state.handle e).effects) :
    ((a.run events).state.handle e).state.streams.empty = true
      ∧ ((a.run events).state.handle e).state.deleted = true
      ∧ ((a.run events).state.handle e).state.destructor
        = { state := ((a.run events).state.handle e).state, effects := [], aborted := false }
      ∧ ((a.run events).state.handle e).aborted = false
      ∧ (e = Event.dispose
          ∨ ∃ socket peerAddress fault, e = Event.connectionClosed socket peerAddress fault)
      ∧ (∃ (b : RelayedStreamingAllocation) (pre : List Effect),
          b.deleted = false
          ∧ ((a.run events).state.handle e).effects = pre ++ b.dispose.effects
          ∧ ((a.run events).state.handle e).state = b.dispose.state
          ∧ Effect.deleteLater ∉ pre)
      ∧ Effect.deleteLater ∉ ((a.run events).state.initiate f).effects := by
  obtain ⟨hkind, b, pre, hb, hfx, hst, hpre⟩ := handle_schedules (a.run events).state e h
  have hlive := dispose_of_live b hb
  have hentries : ((a.run events).state.handle e).state.streams.entries = [] := by
    rw [hst, hlive]
  have hdel : ((a.run events).state.handle e).state.deleted = true := by
    rw [hst, hlive]
  have hempty : ((a.run events).state.handle e).state.streams.empty = true := by
    simp [StreamManager.empty, hentries]
  refine ⟨hempty, hdel, ?_, ?_, hkind, ⟨b, pre, hb, hfx, hst, hpre⟩, ?_⟩
  · simp [destructor, hempty, hdel]
  · rcases hkind with rfl | ⟨socket, peerAddress, fault, rfl⟩
    · simp only [handle]
      unfold RelayedStreamingAllocation.dispose
      split <;> rfl
    · have hc := closedTry_count_teardown (a.run events).state socket peerAddress fault
        Effect.deleteLater (Or.inr rfl)
      rw [List.count_eq_zero] at hc
      simp only [handle, onRelayConnectionClosed] at h ⊢
      split
      · rename_i hab
        rw [if_pos hab] at h
        simp at h
        exact absurd h hc
      · split <;> first | rfl | (rename_i hab _; simpa using hab)
  · cases f with
    | none => simp [initiate, initiateCalls]
    | some g => cases g <;> simp [initiate, initiateCalls, List.takeWhile]

/-- C16 at a concrete input: after ready and the admission of `peerA`, the
close of `peerA` schedules the destruction. -/
theorem C16_destructor_assertions_witness :
    Effect.deleteLater ∈ ((sampleAllocation.run
        [.stateChange .Success, .connectionCreated 7 peerA none]).state.handle
          (.connectionClosed 7 peerA none)).effects
      ∧ ((sampleAllocation.run
        [.stateChange .Success, .connectionCreated 7 peerA none]).state.handle
          (.connectionClosed 7 peerA none)).state.destructor.aborted = false :=
  ⟨by decide,
   congrArg Result.aborted
     (C16_destructor_assertions sampleAllocation
       [.stateChange .Success, .connectionCreated 7 peerA none]
       (.connectionClosed 7 peerA none) none (by decide)).2.2.1⟩

/-! ## C17 -/

theorem RelayedStreamingAllocation.dispose_admission (a : RelayedStreamingAllocation) :
    a.dispose.effects.countP Effect.isAdmission = 0 ∧ a.dispose.state.deleted = true := by
  cases hdel : a.deleted with
  | true =>
    rw [dispose_of_deleted a hdel]
    exact ⟨rfl, hdel⟩
  | false =>
    rw [dispose_of_live a hdel]
    refine ⟨?_, rfl⟩
    simp [List.countP_cons, List.countP_append, Effect.isAdmission, List.countP_eq_zero]

theorem RelayedStreamingAllocation.closedTry_admission (a : RelayedStreamingAllocation)
    (socket : Socket) (peerAddress : Address) (fault : Option ClosedFault) :
    (closedTry a socket peerAddress fault).effects.countP Effect.isAdmission = 0 := by
  unfold closedTry
  split
  · rfl
  · split
    · rfl
    · split <;> rfl

theorem RelayedStreamingAllocation.handle_admission_budget (a : RelayedStreamingAllocation)
    (e : Event) (hsize : a.streams.size ≤ 1) (hlive : e = Event.dispose ∨ a.deleted = false) :
    (a.handle e).effects.countP Effect.isAdmission
        ≤ (if a.deleted = true then 0 else if a.streams.size = 0 then 1 else 0)
      ∧ ((a.handle e).aborted = false →
          (a.handle e).effects.countP Effect.isAdmission
            + (if (a.handle e).state.deleted = true then 0
               else if (a.handle e).state.streams.size = 0 then 1 else 0)
            ≤ (if a.deleted = true then 0 else if a.streams.size = 0 then 1 else 0)) := by
  cases e with
  | stateChange st =>
    cases st <;> simp [handle, onClientStateChange, List.countP_cons, Effect.isAdmission]
  | connectionCreated socket peerAddr fault =>
    have hdel : a.deleted = false := by
      rcases hlive with h | h
      · exact absurd h (by simp)
      · exact h
    simp only [handle, onRelayConnectionCreated]
    split
    · simp [List.countP_cons, Effect.isAdmission]
    · rename_i hne
      have h0 : a.streams.size = 0 := by
        have : a.streams.size ≠ 1 := by simpa using hne
        omega
      cases fault with
      | none =>
        simp [createdCalls, List.countP_cons, Effect.isAdmission, hdel, h0,
          StreamManager.size_addStream_empty _ _ h0]
      | some f =>
        cases f <;>
          simp [createdCalls, List.takeWhile, List.countP_cons, Effect.isAdmission]
  | connectionClosed socket peerAddress fault =>
    have hdel : a.deleted = false := by
      rcases hlive with h | h
      · exact absurd h (by simp)
      · exact h
    have hc := closedTry_admission a socket peerAddress fault
    have hd := closedTry_deleted a socket peerAddress fault
    have hdis := dispose_admission (closedTry a socket peerAddress fault).state
    simp only [handle, onRelayConnectionClosed]
    split
    · rename_i hab
      simp [List.countP_cons, Effect.isAdmission, hc, hab]
    · split
      · simp [List.countP_cons, List.countP_append, Effect.isAdmission, hc, hdis.1, hdis.2]
      · rename_i hab hempty
        have hsz : (closedTry a socket peerAddress fault).state.streams.size ≠ 0 := by
          intro hz
          apply hempty
          simp only [StreamManager.size] at hz
          simp [StreamManager.empty, List.length_eq_zero.mp hz]
        simp [List.countP_cons, Effect.isAdmission, hc, hd, hdel, hsz]
  | dataReceived data peerAddr =>
    simp [handle, onRelayDataReceived, List.countP_cons, Effect.isAdmission]
  | permissionsCreated =>
    simp [handle, onAllocationPermissionsCreated, List.countP_cons, Effect.isAdmission]
  | dispose =>
    have hdis := dispose_admission a
    simp [handle, hdis.1, hdis.2]

theorem RelayedStreamingAllocation.run_admission_budget (events : List Event) :
    ∀ a : RelayedStreamingAllocation, a.streams.size ≤ 1 → a.deliveredLive events = true →
      (a.run events).effects.countP Effect.isAdmission
        ≤ (if a.deleted = true then 0 else if a.streams.size = 0 then 1 else 0) := by
  induction events with
  | nil => intro a _ _; simp [run]
  | cons e es ih =>
    intro a hsize hlive
    simp only [deliveredLive, Bool.and_eq_true, Bool.or_eq_true, decide_eq_true_eq,
      Bool.not_eq_true'] at hlive
    obtain ⟨hl, hrest⟩ := hlive
    obtain ⟨h1, h2⟩ := handle_admission_budget a e hsize hl
    simp only [run]
    split
    · exact h1
    · rename_i hab
      have hab2 : (a.handle e).aborted = false := by simpa using hab
      have hlive2 : (a.handle e).state.deliveredLive es = true := by
        rcases hrest with h | h
        · exact absurd h hab
        · exact h
      have hih := ih (a.handle e).state (handle_size_le_one a e hsize) hlive2
      have h3 := h2 hab2
      simp only [List.countP_append]
      omega

/-- C17: for every event sequence applied to a freshly constructed allocation
in which no relay event is delivered after dispose() has taken effect, the
number of admitted connections (streams inserted into the registry) over the
whole trace is at most 1: an admission needs an empty registry, and the
registry of a live allocation that has admitted a connection does not become
empty again without dispose() being called. -/
theorem C17_at_most_one_admission (options : StreamingOptions) (clientOptions : ClientOptions)
    (peerIP : String) (events : List Event)
    (h : (RelayedStreamingAllocation.new options clientOptions peerIP).deliveredLive events
      = true) :
    ((RelayedStreamingAllocation.new options clientOptions peerIP).run
        events).effects.countP Effect.isAdmission ≤ 1 := by
  have hb := run_admission_budget events
    (RelayedStreamingAllocation.new options clientOptions peerIP)
    (by simp [RelayedStreamingAllocation.new, StreamManager.size]) h
  split at hb
  · omega
  · split at hb <;> omega

/-- C17 at a concrete input: `peerA` is admitted, `peerB` is rejected and
closes, then `peerA` closes, which disposes the allocation; one admission. -/
theorem C17_at_most_one_admission_witness :
    sampleAllocation.deliveredLive
        [.stateChange .Success, .connectionCreated 7 peerA none,
         .connectionCreated 8 peerB none, .connectionClosed 8 peerB none,
         .connectionClosed 7 peerA none] = true
      ∧ (sampleAllocation.run
        [.stateChange .Success, .connectionCreated 7 peerA none,
         .connectionCreated 8 peerB none, .connectionClosed 8 peerB none,
         .connectionClosed 7 peerA none]).effects.countP Effect.isAdmission ≤ 1 :=
  ⟨by decide,
   C17_at_most_one_admission sampleOptions sampleClientOptions "198.51.100.7"
     [.stateChange .Success, .connectionCreated 7 peerA none,
      .connectionCreated 8 peerB none, .connectionClosed 8 peerB none,
      .connectionClosed 7 peerA none] (by decide)⟩

end scy
